import Mathlib

/-!
Verification of the Auto_aquaponic sensor-cleaning pipeline.

The Python source is shallowly embedded: sensor values are rationals,
`numpy.std` is `Real.sqrt` of the (rational) population variance, timestamps
are parsed calendar records (the source stores strings in the format
"YYYY-MM-DD HH:MM:SS" and parses them with strptime; we model the parsed
form directly, plus the integer `0` sentinel the orchestrator seeds
`last_changed` with), and Python exceptions are modelled with `Except`.
Stateful code is modelled by explicit state passing.
-/

/-- Python exception values that the modelled code can raise. -/
inductive PyErr where
  | attributeError (obj meth : String)
  | typeError
  | valueError (msg : String)
  | indexError
  | nameError (v : String)
deriving DecidableEq

/-- A parsed "YYYY-MM-DD HH:MM:SS" timestamp (the result of
`datetime.strptime(s, "%Y-%m-%d %H:%M:%S")`). -/
structure Timestamp where
  year : ℤ
  month : ℕ
  day : ℕ
  hour : ℕ
  minute : ℕ
  second : ℕ
deriving DecidableEq

instance : Inhabited Timestamp := ⟨⟨1970, 1, 1, 0, 0, 0⟩⟩

/-- Days since 1970-01-01 of a Gregorian civil date (the standard
days-from-civil algorithm, as implemented by Python's `datetime`). -/
def daysFromCivil (t : Timestamp) : ℤ :=
  let y : ℤ := if t.month ≤ 2 then t.year - 1 else t.year
  let era : ℤ := (if 0 ≤ y then y else y - 399) / 400
  let yoe : ℤ := y - era * 400
  let mp : ℤ := ((t.month : ℤ) + 9) % 12
  let doy : ℤ := (153 * mp + 2) / 5 + (t.day : ℤ) - 1
  let doe : ℤ := yoe * 365 + yoe / 4 - yoe / 100 + doy
  era * 146097 + doe - 719468

/-- A datetime as an absolute number of seconds; differences of these model
Python `timedelta`s between two parsed timestamps. -/
def Timestamp.toSecs (t : Timestamp) : ℤ :=
  daysFromCivil t * 86400 + (t.hour : ℤ) * 3600 + (t.minute : ℤ) * 60 + (t.second : ℤ)

/-- A Python value used as a timestamp slot: `main` seeds `last_changed` with
the integer `0`; real readings carry parsed timestamp strings. -/
inductive PyTime where
  | int : ℤ → PyTime
  | str : Timestamp → PyTime
deriving DecidableEq

/-- data_point.py `DataPoint`: value (mutable), timestamp, sensor type, unit. -/
structure DataPoint where
  value : ℚ
  time_stamp : Timestamp
  sensor_type : String
  unit_of_measurement : String
deriving DecidableEq

instance : Inhabited DataPoint := ⟨⟨0, default, "", ""⟩⟩

/-- sliding_window.py `SlidingWindow`: logical `size` plus a deque with
`maxlen = 40` (`max_size` in the source), held as a list, oldest first. -/
structure SlidingWindow (α : Type) where
  size : ℕ
  window : List α
deriving DecidableEq

/-- `collections.deque.append` with a `maxlen`: append on the right and, when
the maximum length is exceeded, silently discard from the left. -/
def dequeAppend (maxlen : ℕ) (l : List α) (x : α) : List α :=
  let l2 := l ++ [x]
  if l2.length ≤ maxlen then l2 else l2.drop (l2.length - maxlen)

/-- `add_reading`: `self.window.append(reading)` on the maxlen-40 deque. -/
def SlidingWindow.add_reading (w : SlidingWindow α) (reading : α) : SlidingWindow α :=
  { w with window := dequeAppend 40 w.window reading }

/-- `slide_next`: append the new reading, then pop and return the oldest.
(`popleft` raises on an empty deque; after an append the deque is nonempty,
so the head/tail projections are total here.) -/
def SlidingWindow.slide_next (w : SlidingWindow α) (reading : α) : α × SlidingWindow α :=
  let l2 := dequeAppend 40 w.window reading
  (l2.headD reading, { w with window := l2.tail })

/-- `is_full`: `len(self.window) >= self.size`. -/
def SlidingWindow.is_full (w : SlidingWindow α) : Bool :=
  decide (w.size ≤ w.window.length)

/-- `as_list`: the window as a plain list. -/
def SlidingWindow.as_list (w : SlidingWindow α) : List α :=
  w.window

/-- `get_win_vals`: the values of all readings, in window order. -/
def SlidingWindow.get_win_vals (w : SlidingWindow DataPoint) : List ℚ :=
  w.window.map (fun dp => dp.value)

/-- `get_win_times`: the timestamps of all readings, in window order. -/
def SlidingWindow.get_win_times (w : SlidingWindow DataPoint) : List Timestamp :=
  w.window.map (fun dp => dp.time_stamp)

/-- `get_sensor_type`: sensor type of the first reading. (On an empty window
the source raises IndexError; all uses below are on nonempty windows.) -/
def SlidingWindow.get_sensor_type (w : SlidingWindow DataPoint) : String :=
  (w.window.headD default).sensor_type

/-- Replace the element at a (nonnegative) position, leaving the rest alone. -/
def listModifyAt : List α → ℕ → (α → α) → List α
  | [], _, _ => []
  | a :: l, 0, f => f a :: l
  | a :: l, n + 1, f => a :: listModifyAt l n f

/-- `change_val`: `readings[index].value = new_val`, with Python's negative
indexing (−1 is the most recent entry). The mutation aliases the deque's
objects, so the window itself is updated. (An out-of-range index raises in
Python; all uses below are in range.) -/
def SlidingWindow.change_val (w : SlidingWindow DataPoint) (index : ℤ) (new_val : ℚ) :
    SlidingWindow DataPoint :=
  let j : ℤ := if index < 0 then (w.window.length : ℤ) + index else index
  { w with window := listModifyAt w.window j.toNat (fun dp => { dp with value := new_val }) }

/-! ## preprocessor.py -/

/-- `is_null`: the source checks the value for None/NaN and the timestamp for
None/NaN/the literal `'0'`. In this embedding every reading carries a concrete
rational value and a parsed timestamp, so no reading is null. -/
def is_null (_datapoint : DataPoint) : Bool := false

/-- `statistics.mean`. (The source never calls it on an empty list; Python
would raise StatisticsError there.) -/
def mean (l : List ℚ) : ℚ :=
  l.sum / l.length

/-- `statistics.median`: middle element of the sorted list for odd length,
average of the two middle elements for even length. -/
def median (l : List ℚ) : ℚ :=
  let s := l.insertionSort (· ≤ ·)
  let n := l.length
  if n % 2 = 1 then s.getD (n / 2) 0
  else (s.getD (n / 2 - 1) 0 + s.getD (n / 2) 0) / 2

/-- `do_EMA`: smooth the newest value against the carried EMA, overwrite the
most recent entry with the smoothed value and return the new EMA. -/
def do_EMA (window : SlidingWindow DataPoint) (last_EMA : ℚ) (alpha : ℚ) :
    ℚ × SlidingWindow DataPoint :=
  let window_vals := window.get_win_vals
  let latest_val := window_vals.getLastD 0
  let new_EMA := alpha * latest_val + (1 - alpha) * last_EMA
  (new_EMA, window.change_val (-1) new_EMA)

/-- `med_filter`: median of the first `med_window` values; if the middle entry
of that prefix differs from the median, overwrite it with the median. -/
def med_filter (window : SlidingWindow DataPoint) (med_window : ℕ) : SlidingWindow DataPoint :=
  let window_vals := window.get_win_vals
  let med_arr := window_vals.take med_window
  let mid := med_window / 2
  if med_arr.getD mid 0 ≠ median med_arr then window.change_val mid (median med_arr)
  else window

/-- `range_check`: with `all_vals`, scan the first `window.size` positions of a
snapshot of the values and replace each out-of-range entry by the mean of the
other snapshot values; otherwise check only the most recent value and, if out
of range, replace it by the mean of the remaining values. -/
def range_check (window : SlidingWindow DataPoint) (UL LL : ℚ) (all_vals : Bool) :
    SlidingWindow DataPoint :=
  let window_vals := window.get_win_vals
  if all_vals then
    (List.range window.size).foldl
      (fun w i =>
        if UL < window_vals.getD i 0 ∨ window_vals.getD i 0 < LL then
          w.change_val i (mean (window_vals.take i ++ window_vals.drop (i + 1)))
        else w)
      window
  else
    if UL < window_vals.getLastD 0 ∨ window_vals.getLastD 0 < LL then
      window.change_val (-1) (mean window_vals.dropLast)
    else window

/-! ## err_detections.py -/

/-- `time_difference`: parse both arguments with
`strptime(_, "%Y-%m-%d %H:%M:%S")` and subtract. Passing a non-string (the
integer `0` the orchestrator seeds `last_changed` with) raises TypeError. -/
def time_difference (time1 time2 : PyTime) : Except PyErr ℤ :=
  match time1, time2 with
  | PyTime.str t1, PyTime.str t2 => Except.ok (t2.toSecs - t1.toSecs)
  | _, _ => Except.error PyErr.typeError

/-- `is_const_err`: if the newest value equals the recorded last-changed value,
signal a fault exactly when the elapsed time since the recorded timestamp
strictly exceeds `max_time`; otherwise update `last_changed` to the newest
(value, timestamp) pair and report no fault. The returned pair is the fault
flag together with the (possibly updated) `last_changed` state. -/
def is_const_err (window : SlidingWindow DataPoint) (last_changed : ℚ × PyTime)
    (max_time : ℤ) : Except PyErr (Bool × (ℚ × PyTime)) := do
  let window_times := window.get_win_times
  let window_vals := window.get_win_vals
  if window_vals.getLastD 0 = last_changed.1 then
    let time_diff ← time_difference last_changed.2 (PyTime.str (window_times.getLastD default))
    if max_time < time_diff then pure (true, last_changed)
    else pure (false, last_changed)
  else
    pure (false, (window_vals.getLastD 0, PyTime.str (window_times.getLastD default)))

/-- Population variance, so that `numpy.std = Real.sqrt ∘ variance`. -/
def variance (l : List ℚ) : ℚ :=
  (l.map (fun x => (x - mean l) ^ 2)).sum / l.length

/-- `numpy.std`: square root of the population variance. -/
noncomputable def std (l : List ℚ) : ℝ :=
  Real.sqrt (variance l)

/-- `get_slack`: `k * std(sensor_readings)` with the default `k = 0.5`. -/
noncomputable def get_slack (sensor_readings : List ℚ) : ℝ :=
  (1 / 2 : ℝ) * std sensor_readings

/-- `get_control_lim`: `k * std(sensor_readings)` with the default `k = 5`. -/
noncomputable def get_control_lim (sensor_readings : List ℚ) : ℝ :=
  5 * std sensor_readings

/-- Python `min` over a nonempty list (the source never takes the min of an
empty list; the seed is only a placeholder for that impossible case). -/
def pyListMin (l : List ℚ) : ℚ :=
  l.foldr min (l.headD 0)

/-- Python `max` over a nonempty list. -/
def pyListMax (l : List ℚ) : ℚ :=
  l.foldr max (l.headD 0)

/-- `get_alpha`: normalized standard deviation over half the range, clamped to
`[0, 1]`, with `alpha = 0` when the window has zero spread. -/
noncomputable def get_alpha (window_vals : List ℚ) : ℝ :=
  let std_norm := std window_vals
  let x_min := pyListMin window_vals
  let x_max := pyListMax window_vals
  let delta_x := x_max - x_min
  let std_max : ℚ := delta_x / 2
  if std_max = 0 then 0
  else max 0 (min 1 (std_norm / (std_max : ℝ)))

/-- `get_AES_target`: adaptive exponential smoothing of the newest value
against the carried smoothed target. -/
noncomputable def get_AES_target (window_vals : List ℚ) (last_smoothed : ℝ) : ℝ :=
  let alpha := get_alpha window_vals
  let xt : ℝ := (window_vals.getLastD 0 : ℚ)
  alpha * xt + (1 - alpha) * last_smoothed

/-- The dynamically-typed `window` argument of `CUSUM`: the function expects a
`SlidingWindow` object, but both orchestrators actually pass the plain list
returned by `window.get_win_vals()`. -/
inductive WinArg where
  | win : SlidingWindow DataPoint → WinArg
  | floatList : List ℚ → WinArg

/-- Attribute lookup `window.get_win_vals()`: succeeds on a `SlidingWindow`,
raises AttributeError on a plain list. -/
def dynGetWinVals : WinArg → Except PyErr (List ℚ)
  | WinArg.win w => Except.ok w.get_win_vals
  | WinArg.floatList _ => Except.error (PyErr.attributeError "list" "get_win_vals")

/-- Attribute lookup `window.get_win_times()` on the dynamic argument. -/
def dynGetWinTimes : WinArg → Except PyErr (List Timestamp)
  | WinArg.win w => Except.ok w.get_win_times
  | WinArg.floatList _ => Except.error (PyErr.attributeError "list" "get_win_times")

open Classical in
/-- `CUSUM`: compute the AES target, slack and control limit from the window
values, push the clipped positive/negative deviations of the newest value into
the two deviation windows (fill-then-slide), and compare the deviation sums
against the control limit. The newest window timestamp is looked up for the
diagnostic CSV row (`write_csv`, an external file append with no influence on
the result). Returns the 2-tuple `(in-control flag, control limit)` together
with the updated deviation windows (which the source mutates in place). -/
noncomputable def CUSUM (dev_plus_win dev_minus_win : SlidingWindow ℝ) (window : WinArg)
    (last_smoothed : ℝ) : Except PyErr ((Bool × ℝ) × SlidingWindow ℝ × SlidingWindow ℝ) := do
  let window_vals ← dynGetWinVals window
  let target := get_AES_target window_vals last_smoothed
  let slack := get_slack window_vals
  let control_lim := get_control_lim window_vals
  let xi : ℝ := (window_vals.getLastD 0 : ℚ)
  let dev := xi - target
  let dev_plus := max 0 (dev - slack)
  let dev_minus := max 0 (-dev - slack)
  let updated :=
    if dev_plus_win.is_full then
      ((dev_plus_win.slide_next dev_plus).2, (dev_minus_win.slide_next dev_minus).2)
    else
      (dev_plus_win.add_reading dev_plus, dev_minus_win.add_reading dev_minus)
  let CT_plus_sum := updated.1.as_list.sum
  let CT_minus_sum := updated.2.as_list.sum
  let _newest_time ← dynGetWinTimes window
  if control_lim < CT_plus_sum ∨ control_lim < CT_minus_sum then
    pure ((false, control_lim), updated.1, updated.2)
  else
    pure ((true, control_lim), updated.1, updated.2)

/-! ## prediction.py -/

/-- `Model.__init__`: loads the temperature model for `'temp'` (an external
keras file, treated as an available collaborator) and raises ValueError for
every other sensor type (including `None`, the fall-through of
`get_model_type`). -/
def model_init (sensor_type : Option String) : Except PyErr Unit :=
  if sensor_type = some "temp" then Except.ok ()
  else Except.error (PyErr.valueError "model not available")

/-! ## main.py: sensor configuration tables -/

/-- `get_UL`: the source uses sequential unguarded `if`s; the conditions are
mutually exclusive, so they collapse to this chain. An unmatched sensor type
leaves `UL` unbound and the final `return UL` raises NameError. -/
def get_UL (sensor_type : String) : Except PyErr ℚ :=
  if sensor_type = "Pvoltage_sensor" then Except.ok 50
  else if sensor_type = "Bvoltage_sensor" then Except.ok 50
  else if sensor_type = "SSTEMP_sensor" ∨ sensor_type = "TEMP_sensor" then Except.ok 45
  else if sensor_type = "illuminance_sensor" then Except.ok 130000
  else if sensor_type = "SSHUM_sensor" then Except.ok 85
  else if sensor_type = "PH_sensor" then Except.ok 50
  else if sensor_type = "WINDDIR_sensor" then Except.ok 360
  else Except.error (PyErr.nameError "UL")

/-- `get_LL`: lower limits, same shape as `get_UL`. -/
def get_LL (sensor_type : String) : Except PyErr ℚ :=
  if sensor_type = "Pvoltage_sensor" then Except.ok (-(1 / 100000000))
  else if sensor_type = "Bvoltage_sensor" then Except.ok (-(1 / 100000000))
  else if sensor_type = "SSTEMP_sensor" ∨ sensor_type = "TEMP_sensor" then Except.ok (-10)
  else if sensor_type = "illuminance_sensor" then Except.ok (-(1 / 100000000))
  else if sensor_type = "SSHUM_sensor" then Except.ok 10
  else if sensor_type = "PH_sensor" then Except.ok (-20)
  else if sensor_type = "WINDDIR_sensor" then Except.ok 0
  else Except.error (PyErr.nameError "LL")

/-- `get_max_time`: the source initializes `max_time = timedelta(minutes=30)`
and every sensor branch re-assigns the same 30 minutes, so the result is
1800 seconds for every sensor type. -/
def get_max_time (_sensor_type : String) : ℤ := 1800

/-- `get_model_type`: map sensor types to model names; `WINDDIR_sensor` and
unknown types fall through and return `None`. -/
def get_model_type (sensor_type : String) : Option String :=
  if sensor_type = "Pvoltage_sensor" then some "pvolt"
  else if sensor_type = "Bvoltage_sensor" then some "bvolt"
  else if sensor_type = "SSTEMP_sensor" ∨ sensor_type = "TEMP_sensor" then some "temp"
  else if sensor_type = "illuminance_sensor" then some "illum"
  else if sensor_type = "SSHUM_sensor" then some "hum"
  else if sensor_type = "PH_sensor" then some "ph"
  else none

/-- A Python number as `int` or `float`: `get_ML_range` mixes the two, and
`range()` accepts only `int`s, so the distinction is semantically relevant. -/
inductive PyNum where
  | int : ℤ → PyNum
  | float : ℚ → PyNum
deriving DecidableEq

/-- `get_ML_range`: returns `(high, low)` for the sensor type; unmatched types
leave the locals unbound (NameError). `-0.000001` is a float literal, the other
bounds are int literals. -/
def get_ML_range (sensor_type : String) : Except PyErr (PyNum × PyNum) :=
  if sensor_type = "Pvoltage_sensor" then Except.ok (PyNum.int 50, PyNum.float (-(1 / 1000000)))
  else if sensor_type = "Bvoltage_sensor" then Except.ok (PyNum.int 50, PyNum.float (-(1 / 1000000)))
  else if sensor_type = "SSTEMP_sensor" ∨ sensor_type = "TEMP_sensor" then
    Except.ok (PyNum.int 30, PyNum.int 8)
  else if sensor_type = "illuminance_sensor" then
    Except.ok (PyNum.int 100000, PyNum.float (-(1 / 1000000)))
  else if sensor_type = "SSHUM_sensor" then Except.ok (PyNum.int 80, PyNum.int 15)
  else if sensor_type = "PH_sensor" then Except.ok (PyNum.int 50, PyNum.int (-15))
  else if sensor_type = "WINDDIR_sensor" then
    Except.ok (PyNum.int 361, PyNum.float (-(1 / 1000000)))
  else Except.error (PyErr.nameError "high")

/-- Python `int()` on a float: truncation toward zero. -/
def pyInt (q : ℚ) : ℤ :=
  if 0 ≤ q then ⌊q⌋ else ⌈q⌉

/-- Python `range(lower, upper)`: defined only when both endpoints are `int`s;
a float endpoint raises TypeError. -/
def pyRange (lower upper : PyNum) : Except PyErr (ℤ × ℤ) :=
  match lower, upper with
  | PyNum.int lo, PyNum.int hi => Except.ok (lo, hi)
  | _, _ => Except.error PyErr.typeError

/-- `is_dangerous_prediction`: run the forecasting collaborator (`model.predict`,
passed here as a function) on the window's values and timestamps, then test
`int(predicted_values[-1]) not in range(lower, upper)` for the sensor's ML
range. A dangerous prediction also builds an alert datapoint and logs it via
the Telegram bot (external effects, dropped here); the returned boolean is the
function's result. -/
def is_dangerous_prediction
    (predict : List ℚ → List Timestamp → List ℚ × List Timestamp)
    (window : SlidingWindow DataPoint) : Except PyErr Bool := do
  let vals := window.get_win_vals
  let times := window.get_win_times
  let predicted := predict vals times
  let sensor := window.get_sensor_type
  let range_pair ← get_ML_range sensor
  let bounds ← pyRange range_pair.2 range_pair.1
  let p := pyInt (predicted.1.getLastD 0)
  if bounds.1 ≤ p ∧ p < bounds.2 then pure false else pure true

/-! ## main.py: the continuous (MQTT polling) driver `run_sensors` -/

/-- The mutable state of the `run_sensors` loop. `range_flags` is a ghost
trace recording, for each range-validation call, the `check_all` flag the
orchestrator passed (`num_reads == 10` in this driver); it has no influence on
the behaviour. `halted` holds the first uncaught exception: the loop is
wrapped in `try ... except KeyboardInterrupt` only, so any other exception
terminates the whole driver. -/
structure SensorsState where
  window : SlidingWindow DataPoint
  CT_plus_win : SlidingWindow ℝ
  CT_min_win : SlidingWindow ℝ
  clean_vals : List DataPoint
  num_reads : ℕ
  last_changed : ℚ × PyTime
  last_EMA : ℚ
  range_flags : List Bool
  halted : Option PyErr

/-- Initial `run_sensors` state: `main` provides `last_changed = [0, 0]` (an
int-0 timestamp sentinel) and `last_EMA = 0`; the driver allocates the three
size-10 windows and starts `num_reads` at 1. -/
def sensorsInit : SensorsState :=
  { window := ⟨10, []⟩, CT_plus_win := ⟨10, []⟩, CT_min_win := ⟨10, []⟩
    clean_vals := [], num_reads := 1, last_changed := (0, PyTime.int 0)
    last_EMA := 0, range_flags := [], halted := none }

open Classical in
/-- The preprocessing/error-detection block of `run_sensors` (executed when the
window is full and a reading was admitted): seed `last_changed` if
`num_reads == 10`, constant-fault check, range validation with
`check_all = (num_reads == 10)`, EMA, median filter, the CUSUM call (which
passes `window.get_win_vals()` — a plain list — as CUSUM's window argument),
and the forecast check. Alert logging and console prints are external
effects and are dropped. -/
noncomputable def sensorsSteady (predict : List ℚ → List Timestamp → List ℚ × List Timestamp)
    (s : SensorsState) : SensorsState :=
  let s :=
    if s.num_reads = 10 then
      { s with last_changed := (s.window.get_win_vals.getLastD 0,
          PyTime.str (s.window.get_win_times.getLastD default)) }
    else s
  match is_const_err s.window s.last_changed (get_max_time s.window.get_sensor_type) with
  | Except.error e => { s with halted := some e }
  | Except.ok res =>
    let s := { s with last_changed := res.2 }
    match get_UL s.window.get_sensor_type, get_LL s.window.get_sensor_type with
    | Except.error e, _ => { s with halted := some e }
    | _, Except.error e => { s with halted := some e }
    | Except.ok UL, Except.ok LL =>
      let flag := decide (s.num_reads = 10)
      let s := { s with window := range_check s.window UL LL flag
                        range_flags := s.range_flags ++ [flag] }
      let ema := do_EMA s.window s.last_EMA (2 / 5)
      let s := { s with last_EMA := ema.1, window := ema.2 }
      let s := { s with window := med_filter s.window 3 }
      match CUSUM s.CT_plus_win s.CT_min_win (WinArg.floatList s.window.get_win_vals)
          (s.last_EMA : ℝ) with
      | Except.error e => { s with halted := some e }
      | Except.ok r =>
        let s := { s with CT_plus_win := r.2.1, CT_min_win := r.2.2 }
        match is_dangerous_prediction predict s.window with
        | Except.error e => { s with halted := some e }
        | Except.ok _ => s

open Classical in
/-- One iteration of the `run_sensors` polling loop, given the reading the
feed delivered: null filter, the `num_reads == 1` seeding (`last_EMA` from the
raw value, then the `Model` constructor, whose ValueError for non-temperature
sensors escapes the loop), the counter increment, admission (slide when
already full, append otherwise), and the steady block when the window is full.
A state that already holds an uncaught exception is frozen. -/
noncomputable def sensorsStep (predict : List ℚ → List Timestamp → List ℚ × List Timestamp)
    (s : SensorsState) (reading : DataPoint) : SensorsState :=
  if s.halted.isSome then s
  else if is_null reading then s
  else
    let s := if s.num_reads = 1 then { s with last_EMA := reading.value } else s
    match (if s.num_reads = 1 then model_init (get_model_type reading.sensor_type)
           else Except.ok ()) with
    | Except.error e => { s with halted := some e }
    | Except.ok _ =>
      let s := { s with num_reads := s.num_reads + 1 }
      let s :=
        if s.window.is_full then
          let r := s.window.slide_next reading
          { s with window := r.2, clean_vals := s.clean_vals ++ [r.1] }
        else { s with window := s.window.add_reading reading }
      if s.window.is_full then sensorsSteady predict s else s

/-- `run_sensors` on a finite trace of delivered readings: the infinite polling
loop, restricted to the iterations in which the feed produced a reading. -/
noncomputable def run_sensors (predict : List ℚ → List Timestamp → List ℚ × List Timestamp)
    (readings : List DataPoint) : SensorsState :=
  readings.foldl (sensorsStep predict) sensorsInit

/-! ## main.py: the bulk (CSV replay) driver `run_csv` -/

/-- The mutable state of `run_csv`. As in `SensorsState`, `range_flags` is a
ghost trace of the `check_all` flags passed to range validation (here the
`first_window` flag), and `halted` holds the first exception, which
propagates out of `run_csv` so that no cleaned list is returned. -/
structure CsvState where
  window : SlidingWindow DataPoint
  CT_plus_win : SlidingWindow ℝ
  CT_min_win : SlidingWindow ℝ
  cleaned_data : List DataPoint
  data_points : List DataPoint
  target : ℚ
  last_changed : ℚ × PyTime
  last_EMA : ℚ
  first_window : Bool
  range_flags : List Bool
  halted : Option PyErr

/-- The fill loop of `run_csv`: `while not window.is_full() and data_points:`
pop the head, admit it unless null, and set `first_window = True` (the source
assigns the flag inside the loop body on every iteration). The fuel argument
bounds the iteration count; each iteration consumes one data point, so the
initial list length is always enough fuel. -/
def csvFill : ℕ → CsvState → CsvState
  | 0, s => s
  | n + 1, s =>
    if ¬ s.window.is_full ∧ s.data_points ≠ [] then
      match s.data_points with
      | [] => s
      | dp :: rest =>
        let s :=
          if is_null dp then { s with data_points := rest }
          else { s with window := s.window.add_reading dp, data_points := rest }
        csvFill n { s with first_window := true }
    else s

open Classical in
/-- One iteration of the `while data_points:` loop of `run_csv` (entered with
`data_points` nonempty): first-window seeding of `last_changed` and
`last_EMA`, constant-fault check, range validation with `check_all =
first_window` (resetting the flag), median filter, EMA, then the CUSUM stage.
The CUSUM call passes `window.get_win_vals()` — a plain list — as the window
argument, and its result is destructured as `no_err, target, cl = ...`
although `CUSUM` returns a 2-tuple, so even a successful return would raise
ValueError at the unpacking. Consequently the rest of the body (the forecast
check, the null skip and the slide that appends to `cleaned_data`) is
unreachable and every iteration ends with `halted` set. -/
noncomputable def csvSteadyIter (_predict : List ℚ → List Timestamp → List ℚ × List Timestamp)
    (s : CsvState) : CsvState :=
  let s :=
    if s.first_window then
      { s with last_changed := (s.window.get_win_vals.getLastD 0,
          PyTime.str (s.window.get_win_times.getLastD default))
               last_EMA := s.window.get_win_vals.getLastD 0 }
    else s
  match is_const_err s.window s.last_changed (get_max_time s.window.get_sensor_type) with
  | Except.error e => { s with halted := some e }
  | Except.ok res =>
    let s := { s with last_changed := res.2 }
    match get_UL s.window.get_sensor_type, get_LL s.window.get_sensor_type with
    | Except.error e, _ => { s with halted := some e }
    | _, Except.error e => { s with halted := some e }
    | Except.ok UL, Except.ok LL =>
      let flag := s.first_window
      let s := { s with first_window := false
                        window := range_check s.window UL LL flag
                        range_flags := s.range_flags ++ [flag] }
      let s := { s with window := med_filter s.window 3 }
      let ema := do_EMA s.window s.last_EMA (2 / 5)
      let s := { s with last_EMA := ema.1, window := ema.2 }
      match CUSUM s.CT_plus_win s.CT_min_win (WinArg.floatList s.window.get_win_vals)
          (s.target : ℝ) with
      | Except.error e => { s with halted := some e }
      | Except.ok _ =>
        { s with halted := some (PyErr.valueError "not enough values to unpack") }

/-- The `while data_points:` loop, stopping when the list is drained or an
exception has been raised. Fuel bounds the iterations as in `csvFill`. -/
noncomputable def csvSteadyLoop (predict : List ℚ → List Timestamp → List ℚ × List Timestamp) :
    ℕ → CsvState → CsvState
  | 0, s => s
  | n + 1, s =>
    if s.halted.isSome ∨ s.data_points = [] then s
    else csvSteadyLoop predict n (csvSteadyIter predict s)

/-- `run_csv`: grab `target = data_points[0].value` (IndexError on an empty
batch), fill the size-10 window, construct the model (ValueError for
non-temperature sensors), run the steady loop, and, if no exception was
raised, drain the residual window contents into the cleaned list. -/
noncomputable def run_csv (predict : List ℚ → List Timestamp → List ℚ × List Timestamp)
    (dps : List DataPoint) : CsvState :=
  let s0 : CsvState :=
    { window := ⟨10, []⟩, CT_plus_win := ⟨10, []⟩, CT_min_win := ⟨10, []⟩
      cleaned_data := [], data_points := dps, target := 0
      last_changed := (0, PyTime.int 0), last_EMA := 0, first_window := false
      range_flags := [], halted := none }
  match dps with
  | [] => { s0 with halted := some PyErr.indexError }
  | dp :: _ =>
    let s0 := { s0 with target := dp.value }
    let s1 := csvFill dps.length s0
    match model_init (get_model_type s1.window.get_sensor_type) with
    | Except.error e => { s1 with halted := some e }
    | Except.ok _ =>
      let s2 := csvSteadyLoop predict s1.data_points.length s1
      if s2.halted.isSome then s2
      else { s2 with cleaned_data := s2.cleaned_data ++ s2.window.as_list }

/-- The value `run_csv` delivers to its caller: the cleaned list on normal
return, or the uncaught exception. -/
noncomputable def run_csv_result (predict : List ℚ → List Timestamp → List ℚ × List Timestamp)
    (dps : List DataPoint) : Except PyErr (List DataPoint) :=
  let s := run_csv predict dps
  match s.halted with
  | some e => Except.error e
  | none => Except.ok s.cleaned_data

/-! ## Concrete inputs used by the witnesses and counterexamples -/

/-- A trivial forecasting collaborator for runs that never reach the forecast
stage. -/
def predict0 : List ℚ → List Timestamp → List ℚ × List Timestamp :=
  fun _ _ => ([], [])

/-- Timestamp of the k-th reading of the concrete traces: 2024-01-01, 25
seconds apart. -/
def tsAt (k : ℕ) : Timestamp :=
  ⟨2024, 1, 1, 0, 25 * k / 60, 25 * k % 60⟩

/-- A temperature reading with the given value at the k-th slot. -/
def mkTemp (v : ℚ) (k : ℕ) : DataPoint :=
  ⟨v, tsAt k, "TEMP_sensor", "°C"⟩

/-- Eleven valid temperature readings; the fourth value (1000) is far outside
the temperature range [−10, 45]. -/
def rs11 : List DataPoint :=
  [mkTemp 20 0, mkTemp 21 1, mkTemp 22 2, mkTemp 1000 3, mkTemp 23 4, mkTemp 24 5,
   mkTemp 25 6, mkTemp 26 7, mkTemp 27 8, mkTemp 28 9, mkTemp 25 10]

/-- The first ten of the readings above. -/
def rs10 : List DataPoint :=
  rs11.take 10

/-- A size-10 window holding three equal readings (value 5). -/
def w555 : SlidingWindow DataPoint :=
  ⟨10, [mkTemp 5 0, mkTemp 5 1, mkTemp 5 2]⟩

/-- An empty size-10 deviation window. -/
def emptyDev : SlidingWindow ℝ :=
  ⟨10, []⟩

/-- The spec's range-validation example: a full size-7 window with values
[10, 9, 10, 100, 13, 14, 10]. -/
def w7 : SlidingWindow DataPoint :=
  ⟨7, [mkTemp 10 0, mkTemp 9 1, mkTemp 10 2, mkTemp 100 3, mkTemp 13 4, mkTemp 14 5, mkTemp 10 6]⟩

/-- The spec's median-filter example: a window beginning [9, 5, 7, ...]. -/
def w957 : SlidingWindow DataPoint :=
  ⟨7, [mkTemp 9 0, mkTemp 5 1, mkTemp 7 2, mkTemp 20 3, mkTemp 21 4, mkTemp 22 5, mkTemp 23 6]⟩

/-- A window at the deque's hard cap: 40 readings with distinct values 0..39. -/
def w40 : SlidingWindow DataPoint :=
  ⟨10, (List.range 40).map (fun i => mkTemp (i : ℕ) i)⟩

/-- A window with a constant-valued pair of readings one hour apart. -/
def wConstPair : SlidingWindow DataPoint :=
  ⟨10, [mkTemp 5 0, ⟨5, ⟨2024, 1, 1, 1, 0, 0⟩, "TEMP_sensor", "°C"⟩]⟩

/-- A one-entry temperature window for the forecast-range check. -/
def wTemp : SlidingWindow DataPoint :=
  ⟨10, [mkTemp 22 0]⟩

/-- A one-entry photovoltaic-voltage window (a sensor whose ML range has a
float lower bound). -/
def wPv : SlidingWindow DataPoint :=
  ⟨10, [⟨1, tsAt 0, "Pvoltage_sensor", "V"⟩]⟩

/-- A forecasting collaborator whose final (and only) predicted value is 30. -/
def predict30 : List ℚ → List Timestamp → List ℚ × List Timestamp :=
  fun _ _ => ([30], [tsAt 1])

/-- A second collaborator with the same final predicted value as
`predict30` but different earlier predictions and timestamps. -/
def predict30b : List ℚ → List Timestamp → List ℚ × List Timestamp :=
  fun _ _ => ([0, 30], [tsAt 2, tsAt 3])

/-- The sensor types whose `get_ML_range` bounds are both Python ints,
together with those bounds `(low, high)`. -/
def intRangeSensors : List (String × ℤ × ℤ) :=
  [("SSTEMP_sensor", 8, 30), ("TEMP_sensor", 8, 30), ("SSHUM_sensor", 15, 80),
   ("PH_sensor", -15, 50)]

/-- The sensor types whose `get_ML_range` lower bound is the float
`-0.000001`. -/
def floatRangeSensors : List String :=
  ["Pvoltage_sensor", "Bvoltage_sensor", "illuminance_sensor", "WINDDIR_sensor"]

/-- A continuous-mode state at its first STEADY step: a full temperature
window, eleventh reading just admitted. -/
def sSteady0 : SensorsState :=
  { window := ⟨10, [mkTemp 20 0, mkTemp 21 1, mkTemp 22 2, mkTemp 23 3, mkTemp 24 4,
      mkTemp 25 5, mkTemp 26 6, mkTemp 27 7, mkTemp 28 8, mkTemp 29 9]⟩
    CT_plus_win := ⟨10, []⟩, CT_min_win := ⟨10, []⟩, clean_vals := []
    num_reads := 11, last_changed := (0, PyTime.str (tsAt 0)), last_EMA := 20
    range_flags := [], halted := none }

/-- A bulk-mode state at its first STEADY step: the same full temperature
window with one reading still queued. -/
def cSteady0 : CsvState :=
  { window := ⟨10, [mkTemp 20 0, mkTemp 21 1, mkTemp 22 2, mkTemp 23 3, mkTemp 24 4,
      mkTemp 25 5, mkTemp 26 6, mkTemp 27 7, mkTemp 28 8, mkTemp 29 9]⟩
    CT_plus_win := ⟨10, []⟩, CT_min_win := ⟨10, []⟩, cleaned_data := []
    data_points := [mkTemp 30 10], target := 20
    last_changed := (0, PyTime.str (tsAt 0)), last_EMA := 0, first_window := true
    range_flags := [], halted := none }

/-! ## General lemmas about the window operations -/

theorem listModifyAt_length (l : List α) (j : ℕ) (f : α → α) :
    (listModifyAt l j f).length = l.length := by
  induction l generalizing j with
  | nil => rfl
  | cons a t ih => cases j <;> simp [listModifyAt, ih]

theorem listModifyAt_getD_self {l : List α} {j : ℕ} (h : j < l.length) (f : α → α) (d : α) :
    (listModifyAt l j f).getD j d = f (l.getD j d) := by
  induction l generalizing j with
  | nil => simp at h
  | cons a t ih =>
    cases j with
    | zero => simp [listModifyAt]
    | succ n => simpa [listModifyAt] using ih (by simpa using h) 

theorem listModifyAt_getD_of_ne {l : List α} {i j : ℕ} (h : i ≠ j) (f : α → α) (d : α) :
    (listModifyAt l j f).getD i d = l.getD i d := by
  induction l generalizing i j with
  | nil => rfl
  | cons a t ih =>
    cases j with
    | zero => cases i with
      | zero => exact absurd rfl h
      | succ m => simp [listModifyAt]
    | succ n => cases i with
      | zero => simp [listModifyAt]
      | succ m => simpa [listModifyAt] using ih (by omega) 

theorem listModifyAt_map_invariant {f : α → α} {g : α → β} (hg : ∀ a, g (f a) = g a)
    (l : List α) (j : ℕ) : (listModifyAt l j f).map g = l.map g := by
  induction l generalizing j with
  | nil => rfl
  | cons a t ih => cases j <;> simp [listModifyAt, hg, ih]

theorem listModifyAt_map_value {f : α → α} {g : α → β} {v : β} (hv : ∀ a, g (f a) = v)
    (l : List α) (j : ℕ) :
    (listModifyAt l j f).map g = listModifyAt (l.map g) j (fun _ => v) := by
  induction l generalizing j with
  | nil => rfl
  | cons a t ih => cases j <;> simp [listModifyAt, hv, ih]

theorem change_val_window_nat (w : SlidingWindow DataPoint) (i : ℕ) (v : ℚ) :
    (w.change_val i v).window =
      listModifyAt w.window i (fun dp => { dp with value := v }) := by
  simp only [SlidingWindow.change_val]
  rw [if_neg (by omega)]
  simp

theorem change_val_window_neg_one (w : SlidingWindow DataPoint) (v : ℚ)
    (h : w.window ≠ []) :
    (w.change_val (-1) v).window =
      listModifyAt w.window (w.window.length - 1) (fun dp => { dp with value := v }) := by
  have hlen : 0 < w.window.length := List.length_pos.mpr h
  simp only [SlidingWindow.change_val]
  congr 1
  omega

theorem change_val_size (w : SlidingWindow DataPoint) (i : ℤ) (v : ℚ) :
    (w.change_val i v).size = w.size := rfl

theorem change_val_length (w : SlidingWindow DataPoint) (i : ℤ) (v : ℚ) :
    (w.change_val i v).window.length = w.window.length := by
  simp [SlidingWindow.change_val, listModifyAt_length]

theorem change_val_times (w : SlidingWindow DataPoint) (i : ℤ) (v : ℚ) :
    (w.change_val i v).get_win_times = w.get_win_times := by
  simp only [SlidingWindow.change_val, SlidingWindow.get_win_times]
  exact @listModifyAt_map_invariant DataPoint Timestamp (fun dp => { dp with value := v })
    (fun dp => dp.time_stamp) (fun a => rfl) w.window _

theorem change_val_vals_nat (w : SlidingWindow DataPoint) (i : ℕ) (v : ℚ) :
    (w.change_val i v).get_win_vals = listModifyAt w.get_win_vals i (fun _ => v) := by
  simp only [SlidingWindow.get_win_vals, change_val_window_nat]
  exact @listModifyAt_map_value DataPoint ℚ (fun dp => { dp with value := v })
    (fun dp => dp.value) v (fun a => rfl) w.window i

/-! ## C8: the bounded window's add operation -/

/-- C8 (counterexample): with the deque already holding its hard cap of 40
readings, `add_reading` does not fail with a capacity error: it returns a
40-entry window whose oldest entry (value 0) has been silently discarded and
whose new head is the second-oldest entry — contradicting the claim that the
add operation fails rather than silently dropping data. -/
theorem C8_counterexample :
    (w40.add_reading (mkTemp 50 40)).window.length = 40 ∧
    (w40.add_reading (mkTemp 50 40)).window.headD default = mkTemp 1 1 ∧
    mkTemp 0 0 ∈ w40.window ∧
    mkTemp 0 0 ∉ (w40.add_reading (mkTemp 50 40)).window := by
  refine ⟨by with_unfolding_all rfl, by with_unfolding_all rfl, ?_, ?_⟩
  · simp [w40, List.mem_map]
    exact ⟨0, by simp, by with_unfolding_all rfl⟩
  · intro hmem
    simp [w40, SlidingWindow.add_reading, dequeAppend, List.mem_append, List.mem_map] at hmem
    rcases hmem with hmem | hmem
    · revert hmem
      with_unfolding_all decide
    · revert hmem
      with_unfolding_all decide

/-- C8 (amended): `add_reading` appends the reading when the deque holds fewer
than the hard cap of 40 entries; when the hard cap is reached it silently
discards the oldest entry instead of failing; in either case the window length
never exceeds the hard cap. -/
theorem C8_add_reading (w : SlidingWindow α) (r : α) (h : w.window.length ≤ 40) :
    (w.add_reading r).window.length ≤ 40 ∧
    (w.window.length < 40 → (w.add_reading r).window = w.window ++ [r]) ∧
    (w.window.length = 40 → (w.add_reading r).window = w.window.tail ++ [r]) := by
  unfold SlidingWindow.add_reading dequeAppend
  by_cases hlt : w.window.length + 1 ≤ 40
  · rw [if_pos (by simpa using hlt)]
    refine ⟨by simpa using hlt, fun _ => rfl, fun h40 => ?_⟩
    omega
  · have h40 : w.window.length = 40 := by omega
    rw [if_neg (by simp; omega)]
    have hk : (w.window ++ [r]).length - 40 = 1 := by simp [h40]
    rw [hk]
    have hdrop : (w.window ++ [r]).drop 1 = w.window.drop 1 ++ [r] :=
      List.drop_append_of_le_length (by omega)
    refine ⟨?_, fun hlt2 => by omega, fun _ => by simpa [List.drop_one] using hdrop⟩
    simp [hdrop, h40]

/-- C8 witness: the amended statement applied to the hard-cap window `w40`. -/
theorem C8_add_reading_witness :
    w40.window.length ≤ 40 ∧
    (w40.add_reading (mkTemp 50 40)).window.length ≤ 40 ∧
    (w40.window.length = 40 →
      (w40.add_reading (mkTemp 50 40)).window = w40.window.tail ++ [mkTemp 50 40]) := by
  have h : w40.window.length ≤ 40 := by simp [w40]
  exact ⟨h, (C8_add_reading w40 (mkTemp 50 40) h).1, (C8_add_reading w40 (mkTemp 50 40) h).2.2⟩

/-! ## C10: the forecast-range check -/

/-- C10 (counterexample): for a temperature window the configured safe range is
`[8, 30]`; a final predicted value of exactly 30 lies inside the closed
interval, yet `is_dangerous_prediction` reports a dangerous prediction,
because the source tests `int(pred) not in range(lower, upper)`, a half-open
integer range. -/
theorem C10_counterexample :
    is_dangerous_prediction predict30 wTemp = Except.ok true ∧
    (8 : ℚ) ≤ 30 ∧ (30 : ℚ) ≤ 30 := by
  exact ⟨by with_unfolding_all rfl, by norm_num, le_refl _⟩

/-- C10 (amended): the forecast-range check consults only the final predicted
value. For the sensor types whose configured bounds are both Python ints
(temperature under both aliases, humidity, pH) it reports a dangerous
prediction exactly when the truncated-to-int final predicted value lies
outside the half-open integer range `[low, high)`; for the sensor types whose
configured lower bound is the float `-0.000001` (photovoltaic voltage,
battery voltage, illuminance, wind direction) the call raises TypeError,
because Python's `range` rejects float endpoints. -/
theorem C10_is_dangerous_prediction
    (predict : List ℚ → List Timestamp → List ℚ × List Timestamp)
    (w : SlidingWindow DataPoint) :
    (∀ lo hi : ℤ, (w.get_sensor_type, lo, hi) ∈ intRangeSensors →
      is_dangerous_prediction predict w =
        Except.ok (decide (pyInt ((predict w.get_win_vals w.get_win_times).1.getLastD 0) < lo ∨
          hi ≤ pyInt ((predict w.get_win_vals w.get_win_times).1.getLastD 0)))) ∧
    (w.get_sensor_type ∈ floatRangeSensors →
      is_dangerous_prediction predict w = Except.error PyErr.typeError) ∧
    (∀ predict2 : List ℚ → List Timestamp → List ℚ × List Timestamp,
      (predict w.get_win_vals w.get_win_times).1.getLastD 0 =
        (predict2 w.get_win_vals w.get_win_times).1.getLastD 0 →
      is_dangerous_prediction predict w = is_dangerous_prediction predict2 w) := by
  refine ⟨?_, ?_, ?_⟩
  · intro lo hi hmem
    simp only [intRangeSensors, List.mem_cons, List.mem_singleton, Prod.mk.injEq,
      List.not_mem_nil, or_false] at hmem
    rcases hmem with ⟨hs, hlo, hhi⟩ | ⟨hs, hlo, hhi⟩ | ⟨hs, hlo, hhi⟩ | ⟨hs, hlo, hhi⟩ <;>
      subst hlo <;> subst hhi <;>
      · simp [is_dangerous_prediction, hs, get_ML_range, pyRange, bind, Except.bind,
          pure, Except.pure]
        split_ifs with hcond
        · simp
          omega
        · simp
          omega
  · intro hmem
    simp only [floatRangeSensors, List.mem_cons, List.mem_singleton,
      List.not_mem_nil, or_false] at hmem
    rcases hmem with hs | hs | hs | hs <;>
      simp [is_dangerous_prediction, hs, get_ML_range, pyRange, bind, Except.bind]
  · intro predict2 hlast
    simp only [is_dangerous_prediction, hlast]

/-- C10 witness: the amended statement applied to a concrete temperature
window (int bounds 8/30), a concrete photovoltaic window (float lower bound),
and two collaborators sharing the same final predicted value. -/
theorem C10_is_dangerous_prediction_witness :
    is_dangerous_prediction predict30 wTemp =
      Except.ok (decide (pyInt ((predict30 wTemp.get_win_vals wTemp.get_win_times).1.getLastD 0) < 8 ∨
        (30 : ℤ) ≤ pyInt ((predict30 wTemp.get_win_vals wTemp.get_win_times).1.getLastD 0))) ∧
    is_dangerous_prediction predict30 wPv = Except.error PyErr.typeError ∧
    is_dangerous_prediction predict30 wTemp = is_dangerous_prediction predict30b wTemp := by
  refine ⟨(C10_is_dangerous_prediction predict30 wTemp).1 8 30 ?_,
    (C10_is_dangerous_prediction predict30 wPv).2.1 ?_,
    (C10_is_dangerous_prediction predict30 wTemp).2.2 predict30b ?_⟩
  · simp [intRangeSensors, wTemp, SlidingWindow.get_sensor_type, mkTemp]
  · simp [floatRangeSensors, wPv, SlidingWindow.get_sensor_type]
  · simp [predict30, predict30b]

/-! ## C6: the constant-fault detector -/

/-- C6: with a parsed last-changed timestamp, `is_const_err` returns without
raising; it reports a fault exactly when the newest value equals the stored
last-changed value and the elapsed seconds from the stored timestamp to the
newest timestamp strictly exceed `max_time`; on a value change it updates
`last_changed` to the newest (value, timestamp) pair, and otherwise leaves it
unchanged. -/
theorem C6_is_const_err (w : SlidingWindow DataPoint) (lv : ℚ) (lt : Timestamp) (mt : ℤ)
    (_hne : w.window ≠ []) :
    ∃ b lc, is_const_err w (lv, PyTime.str lt) mt = Except.ok (b, lc) ∧
      (b = true ↔ (w.get_win_vals.getLastD 0 = lv ∧
        mt < (w.get_win_times.getLastD default).toSecs - lt.toSecs)) ∧
      lc = (if w.get_win_vals.getLastD 0 = lv then (lv, PyTime.str lt)
            else (w.get_win_vals.getLastD 0, PyTime.str (w.get_win_times.getLastD default))) := by
  simp only [is_const_err, time_difference, bind, Except.bind, pure, Except.pure]
  by_cases hv : w.get_win_vals.getLastD 0 = lv
  · by_cases htd : mt < (w.get_win_times.getLastD default).toSecs - lt.toSecs
    · refine ⟨true, (lv, PyTime.str lt), ?_, iff_of_true rfl ⟨hv, htd⟩, by rw [if_pos hv]⟩
      rw [if_pos hv, if_pos htd]
    · refine ⟨false, (lv, PyTime.str lt), ?_,
        iff_of_false (by simp) (fun h => htd h.2), by rw [if_pos hv]⟩
      rw [if_pos hv, if_neg htd]
  · refine ⟨false, (w.get_win_vals.getLastD 0, PyTime.str (w.get_win_times.getLastD default)),
      ?_, iff_of_false (by simp) (fun h => hv h.1), by rw [if_neg hv]⟩
    rw [if_neg hv]

/-- C6 witness: the theorem applied to a window whose two readings hold the
constant value 5 one hour apart, plus the concrete evaluations: with
`last_changed = (5, 00:00:00)` and a 30-minute limit the detector fires and
leaves the state unchanged; with a different stored value (7) it does not fire
and re-seeds the state from the newest reading. -/
theorem C6_is_const_err_witness :
    (wConstPair.window ≠ [] ∧
      ∃ b lc, is_const_err wConstPair (5, PyTime.str (tsAt 0)) 1800 = Except.ok (b, lc) ∧
        (b = true ↔ (wConstPair.get_win_vals.getLastD 0 = 5 ∧
          1800 < (wConstPair.get_win_times.getLastD default).toSecs - (tsAt 0).toSecs)) ∧
        lc = (if wConstPair.get_win_vals.getLastD 0 = 5 then (5, PyTime.str (tsAt 0))
              else (wConstPair.get_win_vals.getLastD 0,
                PyTime.str (wConstPair.get_win_times.getLastD default)))) ∧
    is_const_err wConstPair (5, PyTime.str (tsAt 0)) 1800 =
      Except.ok (true, (5, PyTime.str (tsAt 0))) ∧
    is_const_err wConstPair (7, PyTime.str (tsAt 0)) 1800 =
      Except.ok (false, (5, PyTime.str ⟨2024, 1, 1, 1, 0, 0⟩)) := by
  refine ⟨⟨by simp [wConstPair], C6_is_const_err wConstPair 5 (tsAt 0) 1800 (by simp [wConstPair])⟩,
    by with_unfolding_all rfl, by with_unfolding_all rfl⟩

/-! ## C9: the median filter -/

theorem getD_take_of_lt (l : List α) (k i : ℕ) (h : i < k) (d : α) :
    (l.take k).getD i d = l.getD i d := by
  induction l generalizing k i with
  | nil => simp
  | cons a t ih =>
    cases k with
    | zero => omega
    | succ n => cases i with
      | zero => simp
      | succ m => simpa using ih n m (by omega)

/-- C9: with at least three entries, the median filter preserves the window
length and every timestamp, leaves every value other than the one at index 1
unchanged, and leaves index 1 holding the median of the first three original
values (writing it only when it differs). -/
theorem C9_med_filter (w : SlidingWindow DataPoint) (h3 : 3 ≤ w.window.length) :
    (med_filter w 3).window.length = w.window.length ∧
    (med_filter w 3).get_win_times = w.get_win_times ∧
    (∀ i, i ≠ 1 → ((med_filter w 3).get_win_vals).getD i 0 = w.get_win_vals.getD i 0) ∧
    ((med_filter w 3).get_win_vals).getD 1 0 = median (w.get_win_vals.take 3) := by
  have hlen : w.get_win_vals.length = w.window.length := by
    simp [SlidingWindow.get_win_vals]
  unfold med_filter
  by_cases hc : (w.get_win_vals.take 3).getD (3 / 2) 0 ≠ median (w.get_win_vals.take 3)
  · rw [if_pos hc]
    have h12 : ((3 : ℕ) / 2) = 1 := rfl
    rw [h12] at hc ⊢
    refine ⟨change_val_length _ _ _, change_val_times _ _ _, ?_, ?_⟩
    · intro i hi
      rw [change_val_vals_nat w 1 (median (w.get_win_vals.take 3))]
      exact listModifyAt_getD_of_ne hi _ _
    · rw [change_val_vals_nat w 1 (median (w.get_win_vals.take 3))]
      exact listModifyAt_getD_self (by omega) _ _
  · rw [if_neg hc]
    push_neg at hc
    have h12 : ((3 : ℕ) / 2) = 1 := rfl
    rw [h12] at hc
    refine ⟨rfl, rfl, fun i _ => rfl, ?_⟩
    rw [← hc]
    exact (getD_take_of_lt _ 3 1 (by omega) 0).symm

/-- C9 witness: the theorem applied to the spec's `[9, 5, 7, ...]` window,
plus the concrete evaluation: the median of `{9, 5, 7}` is 7 and the entry at
index 1 (value 5) becomes 7 while all other values and all timestamps are
untouched. -/
theorem C9_med_filter_witness :
    (3 ≤ w957.window.length ∧
      ((med_filter w957 3).get_win_vals).getD 1 0 = median (w957.get_win_vals.take 3)) ∧
    median [9, 5, 7] = 7 ∧
    (med_filter w957 3).get_win_vals = [9, 7, 7, 20, 21, 22, 23] ∧
    (med_filter w957 3).get_win_times = w957.get_win_times := by
  refine ⟨⟨by simp [w957], (C9_med_filter w957 (by simp [w957])).2.2.2⟩,
    by with_unfolding_all rfl, by with_unfolding_all rfl, by with_unfolding_all rfl⟩

/-! ## C5: range validation -/

theorem getLastD_eq_getD (l : List α) (d : α) : l.getLastD d = l.getD (l.length - 1) d := by
  cases l with
  | nil => rfl
  | cons a t =>
    rw [List.getLastD_eq_getLast?, List.getLast?_eq_getElem?]
    simp [List.getD]

theorem change_val_vals_neg_one (w : SlidingWindow DataPoint) (v : ℚ) (h : w.window ≠ []) :
    (w.change_val (-1) v).get_win_vals =
      listModifyAt w.get_win_vals (w.window.length - 1) (fun _ => v) := by
  simp only [SlidingWindow.get_win_vals, change_val_window_neg_one w v h]
  exact @listModifyAt_map_value DataPoint ℚ (fun dp => { dp with value := v })
    (fun dp => dp.value) v (fun a => rfl) w.window _

/-- The body of the `check_all` loop of `range_check`, over the fixed snapshot
`vals` taken before the loop. -/
def rangeBody (vals : List ℚ) (UL LL : ℚ) (w : SlidingWindow DataPoint) (i : ℕ) :
    SlidingWindow DataPoint :=
  if UL < vals.getD i 0 ∨ vals.getD i 0 < LL then
    w.change_val i (mean (vals.take i ++ vals.drop (i + 1)))
  else w

theorem range_check_true_eq_fold (w : SlidingWindow DataPoint) (UL LL : ℚ) :
    range_check w UL LL true =
      (List.range w.size).foldl (rangeBody w.get_win_vals UL LL) w := rfl

theorem range_fold_invariant (vals : List ℚ) (UL LL : ℚ) (w0 : SlidingWindow DataPoint)
    (k : ℕ) :
    ((List.range k).foldl (rangeBody vals UL LL) w0).window.length = w0.window.length ∧
    ((List.range k).foldl (rangeBody vals UL LL) w0).get_win_times = w0.get_win_times ∧
    (∀ i, i < k → (UL < vals.getD i 0 ∨ vals.getD i 0 < LL) → i < w0.window.length →
      (((List.range k).foldl (rangeBody vals UL LL) w0).get_win_vals).getD i 0 =
        mean (vals.take i ++ vals.drop (i + 1))) ∧
    (∀ i, ¬ (i < k ∧ (UL < vals.getD i 0 ∨ vals.getD i 0 < LL)) →
      (((List.range k).foldl (rangeBody vals UL LL) w0).get_win_vals).getD i 0 =
        w0.get_win_vals.getD i 0) := by
  induction k with
  | zero => exact ⟨rfl, rfl, fun i hi => absurd hi (by omega), fun i _ => rfl⟩
  | succ k ih =>
    rw [List.range_succ, List.foldl_append]
    obtain ⟨ihlen, ihtimes, ihout, ihkeep⟩ := ih
    set res := (List.range k).foldl (rangeBody vals UL LL) w0 with hres
    have hvlen : res.get_win_vals.length = res.window.length := by
      simp [SlidingWindow.get_win_vals]
    by_cases hc : UL < vals.getD k 0 ∨ vals.getD k 0 < LL
    · have hstep : List.foldl (rangeBody vals UL LL) res [k] =
          res.change_val k (mean (vals.take k ++ vals.drop (k + 1))) := by
        simp only [List.foldl_cons, List.foldl_nil, rangeBody]
        rw [if_pos hc]
      rw [hstep]
      refine ⟨by rw [change_val_length, ihlen], by rw [change_val_times, ihtimes], ?_, ?_⟩
      · intro i hik hci hilen
        rw [change_val_vals_nat]
        rcases Nat.lt_succ_iff_lt_or_eq.mp hik with hik' | rfl
        · rw [listModifyAt_getD_of_ne (by omega), ihout i hik' hci hilen]
        · exact listModifyAt_getD_self (by omega) _ _
      · intro i hni
        have hik : i ≠ k := by
          intro h
          exact hni ⟨by omega, h ▸ hc⟩
        rw [change_val_vals_nat, listModifyAt_getD_of_ne hik,
          ihkeep i (fun h => hni ⟨by omega, h.2⟩)]
    · have hstep : List.foldl (rangeBody vals UL LL) res [k] = res := by
        simp only [List.foldl_cons, List.foldl_nil, rangeBody]
        rw [if_neg hc]
      rw [hstep]
      refine ⟨ihlen, ihtimes, ?_, ?_⟩
      · intro i hik hci hilen
        rcases Nat.lt_succ_iff_lt_or_eq.mp hik with hik' | rfl
        · exact ihout i hik' hci hilen
        · exact absurd hci hc
      · intro i hni
        refine ihkeep i (fun h => ?_)
        exact hni ⟨by omega, h.2⟩

theorem range_check_false_eq (w : SlidingWindow DataPoint) (UL LL : ℚ) :
    range_check w UL LL false =
      (if UL < w.get_win_vals.getLastD 0 ∨ w.get_win_vals.getLastD 0 < LL then
        w.change_val (-1) (mean w.get_win_vals.dropLast)
      else w) := rfl

/-- C5: for a full window (length = logical size). With `check_all = true`,
every entry whose snapshot value lies strictly outside `[LL, UL]` ends up
holding the mean of the other entries' original values (each offending index
independently), in-range entries keep their values, and all timestamps and the
length are preserved. With `check_all = false`, only the most recent entry is
checked: when its value is out of range it is replaced by the mean of all
values except the last, and everything else is unchanged. -/
theorem C5_range_check (w : SlidingWindow DataPoint) (UL LL : ℚ)
    (hfull : w.window.length = w.size) (hpos : 0 < w.window.length) :
    ((range_check w UL LL true).window.length = w.window.length ∧
     (range_check w UL LL true).get_win_times = w.get_win_times ∧
     ∀ i, i < w.window.length →
       ((range_check w UL LL true).get_win_vals).getD i 0 =
         (if UL < w.get_win_vals.getD i 0 ∨ w.get_win_vals.getD i 0 < LL
          then mean (w.get_win_vals.take i ++ w.get_win_vals.drop (i + 1))
          else w.get_win_vals.getD i 0)) ∧
    ((range_check w UL LL false).window.length = w.window.length ∧
     (range_check w UL LL false).get_win_times = w.get_win_times ∧
     (∀ i, i + 1 < w.window.length →
       ((range_check w UL LL false).get_win_vals).getD i 0 = w.get_win_vals.getD i 0) ∧
     ((range_check w UL LL false).get_win_vals).getD (w.window.length - 1) 0 =
       (if UL < w.get_win_vals.getLastD 0 ∨ w.get_win_vals.getLastD 0 < LL
        then mean w.get_win_vals.dropLast
        else w.get_win_vals.getLastD 0)) := by
  have hwne : w.window ≠ [] := by
    intro h
    rw [h] at hpos
    simp at hpos
  constructor
  · rw [range_check_true_eq_fold]
    obtain ⟨hlen, htimes, hout, hkeep⟩ :=
      range_fold_invariant w.get_win_vals UL LL w w.size
    refine ⟨hlen, htimes, ?_⟩
    intro i hilen
    by_cases hc : UL < w.get_win_vals.getD i 0 ∨ w.get_win_vals.getD i 0 < LL
    · rw [if_pos hc]
      exact hout i (by omega) hc hilen
    · rw [if_neg hc]
      exact hkeep i (fun h => hc h.2)
  · rw [range_check_false_eq]
    have hvlen : w.get_win_vals.length = w.window.length := by
      simp [SlidingWindow.get_win_vals]
    by_cases hc : UL < w.get_win_vals.getLastD 0 ∨ w.get_win_vals.getLastD 0 < LL
    · rw [if_pos hc]
      refine ⟨change_val_length _ _ _, change_val_times _ _ _, ?_, ?_⟩
      · intro i hi
        rw [change_val_vals_neg_one w _ hwne, listModifyAt_getD_of_ne (by omega)]
      · rw [if_pos hc, change_val_vals_neg_one w _ hwne]
        exact listModifyAt_getD_self (by omega) _ _
    · rw [if_neg hc]
      refine ⟨rfl, rfl, fun i _ => rfl, ?_⟩
      rw [if_neg hc, getLastD_eq_getD, hvlen]

/-- C5 witness: the theorem applied to the spec's size-7 example window with
bounds (75, −12), plus the concrete evaluation: index 3 (value 100) becomes
`(10+9+10+13+14+10)/6 = 11`, everything else is unchanged. -/
theorem C5_range_check_witness :
    (w7.window.length = w7.size ∧ 0 < w7.window.length ∧
      ∀ i, i < w7.window.length →
        ((range_check w7 75 (-12) true).get_win_vals).getD i 0 =
          (if (75 : ℚ) < w7.get_win_vals.getD i 0 ∨ w7.get_win_vals.getD i 0 < -12
           then mean (w7.get_win_vals.take i ++ w7.get_win_vals.drop (i + 1))
           else w7.get_win_vals.getD i 0)) ∧
    (range_check w7 75 (-12) true).get_win_vals = [10, 9, 10, 11, 13, 14, 10] ∧
    mean [10, 9, 10, 13, 14, 10] = 11 ∧
    (range_check w7 75 (-12) true).get_win_times = w7.get_win_times := by
  refine ⟨⟨by decide, by decide, (C5_range_check w7 75 (-12) (by decide) (by decide)).1.2.2⟩,
    by with_unfolding_all rfl, by with_unfolding_all rfl, by with_unfolding_all rfl⟩

/-! ## Constant windows: lemmas for the CUSUM claims -/

theorem mean_const {l : List ℚ} {c : ℚ} (h : ∀ x ∈ l, x = c) (hne : l ≠ []) :
    mean l = c := by
  have hsum : l.sum = l.length * c := by
    induction l with
    | nil => simp
    | cons a t ih =>
      have ha : a = c := h a (by simp)
      have ht : t.sum = t.length * c := by
        rcases t with _ | _
        · simp
        · exact ih (fun x hx => h x (by simp [hx])) (by simp)
      simp [ha, ht]
      ring
  have hlen : (l.length : ℚ) ≠ 0 := by
    have h0 : l.length ≠ 0 := by
      simpa [List.length_eq_zero] using hne
    exact_mod_cast h0
  rw [mean, hsum, mul_comm, mul_div_assoc, div_self hlen, mul_one]

theorem variance_const {l : List ℚ} {c : ℚ} (h : ∀ x ∈ l, x = c) :
    variance l = 0 := by
  rcases eq_or_ne l [] with rfl | hne
  · simp [variance]
  · have hm : mean l = c := mean_const h hne
    have hz : (l.map (fun x => (x - mean l) ^ 2)).sum = 0 := by
      apply List.sum_eq_zero
      intro y hy
      rcases List.mem_map.mp hy with ⟨x, hx, rfl⟩
      rw [h x hx, hm]
      ring
    rw [variance, hz, zero_div]

theorem std_const {l : List ℚ} {c : ℚ} (h : ∀ x ∈ l, x = c) :
    std l = 0 := by
  rw [std, variance_const h]
  simp

theorem foldr_min_const {l : List ℚ} {c : ℚ} (h : ∀ x ∈ l, x = c) :
    l.foldr min c = c := by
  induction l with
  | nil => rfl
  | cons a t ih =>
    simp only [List.foldr_cons, ih (fun x hx => h x (by simp [hx])), h a (by simp), min_self]

theorem foldr_max_const {l : List ℚ} {c : ℚ} (h : ∀ x ∈ l, x = c) :
    l.foldr max c = c := by
  induction l with
  | nil => rfl
  | cons a t ih =>
    simp only [List.foldr_cons, ih (fun x hx => h x (by simp [hx])), h a (by simp), max_self]

theorem pyListMin_const {l : List ℚ} {c : ℚ} (h : ∀ x ∈ l, x = c) (hne : l ≠ []) :
    pyListMin l = c := by
  rcases l with _ | ⟨a, t⟩
  · exact absurd rfl hne
  · have ha : a = c := h a (by simp)
    simp only [pyListMin, List.headD_cons, ha]
    exact foldr_min_const (by simpa [ha] using h)

theorem pyListMax_const {l : List ℚ} {c : ℚ} (h : ∀ x ∈ l, x = c) (hne : l ≠ []) :
    pyListMax l = c := by
  rcases l with _ | ⟨a, t⟩
  · exact absurd rfl hne
  · have ha : a = c := h a (by simp)
    simp only [pyListMax, List.headD_cons, ha]
    exact foldr_max_const (by simpa [ha] using h)

theorem get_alpha_const {l : List ℚ} {c : ℚ} (h : ∀ x ∈ l, x = c) (hne : l ≠ []) :
    get_alpha l = 0 := by
  simp only [get_alpha, pyListMin_const h hne, pyListMax_const h hne]
  rw [if_pos]
  simp

theorem get_AES_target_const {l : List ℚ} {c : ℚ} (h : ∀ x ∈ l, x = c) (hne : l ≠ [])
    (last : ℝ) : get_AES_target l last = last := by
  simp only [get_AES_target, get_alpha_const h hne]
  ring

theorem get_slack_const {l : List ℚ} {c : ℚ} (h : ∀ x ∈ l, x = c) :
    get_slack l = 0 := by
  rw [get_slack, std_const h, mul_zero]

theorem get_control_lim_const {l : List ℚ} {c : ℚ} (h : ∀ x ∈ l, x = c) :
    get_control_lim l = 0 := by
  rw [get_control_lim, std_const h, mul_zero]

theorem getLastD_const {l : List ℚ} {c : ℚ} (h : ∀ x ∈ l, x = c) (hne : l ≠ []) (d : ℚ) :
    l.getLastD d = c := by
  rw [getLastD_eq_getD]
  have hlt : l.length - 1 < l.length := by
    have := List.length_pos.mpr hne
    omega
  rw [List.getD_eq_getElem l d hlt]
  exact h _ (List.getElem_mem hlt)

theorem mem_append_singleton_drop (l : List α) (x : α) (k : ℕ) (hk : k ≤ l.length) :
    x ∈ (l ++ [x]).drop k := by
  rw [List.drop_append_of_le_length hk]
  simp

theorem mem_add_reading (w : SlidingWindow ℝ) (x : ℝ) : x ∈ (w.add_reading x).window := by
  simp only [SlidingWindow.add_reading, dequeAppend]
  by_cases h : (w.window ++ [x]).length ≤ 40
  · rw [if_pos h]
    simp
  · rw [if_neg h]
    apply mem_append_singleton_drop
    simp only [List.length_append, List.length_singleton] at h ⊢
    omega

theorem subset_add_reading (w : SlidingWindow ℝ) (x y : ℝ)
    (hy : y ∈ (w.add_reading x).window) : y ∈ w.window ∨ y = x := by
  simp only [SlidingWindow.add_reading, dequeAppend] at hy
  split at hy
  · simpa using hy
  · have := List.mem_of_mem_drop hy
    simpa using this

theorem mem_slide_next (w : SlidingWindow ℝ) (x : ℝ) (hne : w.window ≠ []) :
    x ∈ (w.slide_next x).2.window := by
  simp only [SlidingWindow.slide_next, dequeAppend]
  have hlen : 0 < w.window.length := List.length_pos.mpr hne
  by_cases h : (w.window ++ [x]).length ≤ 40
  · rw [if_pos h]
    rw [← List.drop_one]
    apply mem_append_singleton_drop
    omega
  · rw [if_neg h]
    rw [List.tail_drop]
    apply mem_append_singleton_drop
    simp only [List.length_append, List.length_singleton] at h ⊢
    omega

theorem subset_slide_next (w : SlidingWindow ℝ) (x y : ℝ)
    (hy : y ∈ (w.slide_next x).2.window) : y ∈ w.window ∨ y = x := by
  simp only [SlidingWindow.slide_next, dequeAppend] at hy
  split at hy
  · have := List.mem_of_mem_tail hy
    simpa using this
  · have := List.mem_of_mem_drop (List.mem_of_mem_tail hy)
    simpa using this

theorem sum_pos_of_nonneg_of_mem {l : List ℝ} (h0 : ∀ y ∈ l, 0 ≤ y) {x : ℝ}
    (hx : x ∈ l) (hp : 0 < x) : 0 < l.sum := by
  induction l with
  | nil => simp at hx
  | cons a t ih =>
    rcases List.mem_cons.mp hx with rfl | hxt
    · have ht : 0 ≤ t.sum := List.sum_nonneg (fun y hy => h0 y (by simp [hy]))
      simpa using add_pos_of_pos_of_nonneg hp ht
    · have ha : 0 ≤ a := h0 a (by simp)
      have := ih (fun y hy => h0 y (by simp [hy])) hxt
      simpa using add_pos_of_nonneg_of_pos ha this

/-! ## C7: zero-variance windows force an out-of-control step -/

/-- C7: for a window whose values are all equal: the adaptive smoothing factor
is 0, so the AES target equals the prior smoothed target regardless of the
newest value; the slack and the control limit (0.5 and 5 times the window's
standard deviation) are both 0; and if the newest value (the constant) differs
from the target by any nonzero amount, the CUSUM check reports out-of-control
(with control limit 0) on that step, for any pair of equal-length deviation
windows of positive logical size holding only nonnegative deviations. -/
theorem C7_zero_variance (w : SlidingWindow DataPoint) (c : ℚ) (last : ℝ)
    (hne : w.window ≠ []) (hc : ∀ dp ∈ w.window, dp.value = c) :
    get_alpha w.get_win_vals = 0 ∧
    get_AES_target w.get_win_vals last = last ∧
    get_slack w.get_win_vals = 0 ∧
    get_control_lim w.get_win_vals = 0 ∧
    (∀ devP devM : SlidingWindow ℝ, 0 < devP.size →
      devP.size = devM.size → devP.window.length = devM.window.length →
      (∀ y ∈ devP.window, 0 ≤ y) → (∀ y ∈ devM.window, 0 ≤ y) →
      (c : ℝ) ≠ last →
      ∃ dpw dmw, CUSUM devP devM (WinArg.win w) last = Except.ok ((false, 0), dpw, dmw)) := by
  have hvals : ∀ x ∈ w.get_win_vals, x = c := by
    intro x hx
    rcases List.mem_map.mp hx with ⟨dp, hdp, rfl⟩
    exact hc dp hdp
  have hvne : w.get_win_vals ≠ [] := by
    simp [SlidingWindow.get_win_vals, hne]
  refine ⟨get_alpha_const hvals hvne, get_AES_target_const hvals hvne last,
    get_slack_const hvals, get_control_lim_const hvals, ?_⟩
  intro devP devM hszP hsz hlen hnnP hnnM hder
  have hdev : ((c : ℝ) - last) ≠ 0 := sub_ne_zero.mpr hder
  simp only [CUSUM, dynGetWinVals, dynGetWinTimes, bind, Except.bind,
    get_AES_target_const hvals hvne last, get_slack_const hvals, get_control_lim_const hvals,
    getLastD_const hvals hvne, sub_zero]
  by_cases hfull : devP.is_full = true
  · have hlenP : devP.size ≤ devP.window.length := by
      simpa [SlidingWindow.is_full] using hfull
    have hPne : devP.window ≠ [] := by
      intro h
      rw [h] at hlenP
      simp at hlenP
      omega
    have hMne : devM.window ≠ [] := by
      intro h
      apply hPne
      apply List.length_eq_zero.mp
      rw [hlen, h]
      rfl
    simp only [hfull, if_true]
    have hnn1 : ∀ y ∈ (devP.slide_next (max 0 ((c : ℝ) - last))).2.window, 0 ≤ y := by
      intro y hy
      rcases subset_slide_next devP _ y hy with hy' | rfl
      · exact hnnP y hy'
      · exact le_max_left _ _
    have hnn2 : ∀ y ∈ (devM.slide_next (max 0 (-((c : ℝ) - last)))).2.window, 0 ≤ y := by
      intro y hy
      rcases subset_slide_next devM _ y hy with hy' | rfl
      · exact hnnM y hy'
      · exact le_max_left _ _
    have hcond : get_control_lim w.get_win_vals <
        ((devP.slide_next (max 0 ((c : ℝ) - last))).2.as_list.sum) ∨
        get_control_lim w.get_win_vals <
        ((devM.slide_next (max 0 (-((c : ℝ) - last)))).2.as_list.sum) := by
      rw [get_control_lim_const hvals]
      rcases hdev.lt_or_lt with hlt | hgt
      · right
        refine sum_pos_of_nonneg_of_mem hnn2 (mem_slide_next devM _ hMne) ?_
        rw [max_eq_right (by linarith)]
        linarith
      · left
        refine sum_pos_of_nonneg_of_mem hnn1 (mem_slide_next devP _ hPne) ?_
        rw [max_eq_right hgt.le]
        exact hgt
    rw [get_control_lim_const hvals] at hcond
    rw [if_pos hcond]
    exact ⟨_, _, rfl⟩
  · simp only [hfull, Bool.false_eq_true, if_false]
    have hnn1 : ∀ y ∈ (devP.add_reading (max 0 ((c : ℝ) - last))).window, 0 ≤ y := by
      intro y hy
      rcases subset_add_reading devP _ y hy with hy' | rfl
      · exact hnnP y hy'
      · exact le_max_left _ _
    have hnn2 : ∀ y ∈ (devM.add_reading (max 0 (-((c : ℝ) - last)))).window, 0 ≤ y := by
      intro y hy
      rcases subset_add_reading devM _ y hy with hy' | rfl
      · exact hnnM y hy'
      · exact le_max_left _ _
    have hcond : (0 : ℝ) < ((devP.add_reading (max 0 ((c : ℝ) - last))).as_list.sum) ∨
        (0 : ℝ) < ((devM.add_reading (max 0 (-((c : ℝ) - last)))).as_list.sum) := by
      rcases hdev.lt_or_lt with hlt | hgt
      · right
        refine sum_pos_of_nonneg_of_mem hnn2 (mem_add_reading devM _) ?_
        rw [max_eq_right (by linarith)]
        linarith
      · left
        refine sum_pos_of_nonneg_of_mem hnn1 (mem_add_reading devP _) ?_
        rw [max_eq_right hgt.le]
        exact hgt
    rw [if_pos hcond]
    exact ⟨_, _, rfl⟩

/-- C7 witness: the theorem applied to the constant window `[5, 5, 5]` with
prior smoothed target 4 and empty size-10 deviation windows. -/
theorem C7_zero_variance_witness :
    get_alpha w555.get_win_vals = 0 ∧
    get_AES_target w555.get_win_vals 4 = 4 ∧
    get_slack w555.get_win_vals = 0 ∧
    get_control_lim w555.get_win_vals = 0 ∧
    ∃ dpw dmw, CUSUM emptyDev emptyDev (WinArg.win w555) 4 =
      Except.ok ((false, 0), dpw, dmw) := by
  have hc : ∀ dp ∈ w555.window, dp.value = 5 := by
    intro dp hdp
    simp only [w555, mkTemp, List.mem_cons, List.not_mem_nil, or_false] at hdp
    rcases hdp with rfl | rfl | rfl <;> rfl
  obtain ⟨h1, h2, h3, h4, h5⟩ := C7_zero_variance w555 5 4 (by simp [w555]) hc
  refine ⟨h1, h2, h3, h4,
    h5 emptyDev emptyDev (by norm_num [emptyDev]) rfl rfl (by simp [emptyDev])
      (by simp [emptyDev]) (by norm_num)⟩

/-! ## C1: what CUSUM actually returns -/

/-- C1: evaluating `CUSUM` at a concrete input (empty size-10 deviation
windows, window values `[5, 5, 5]`, last smoothed target 4): the function
returns the 2-tuple `(in-control flag, control limit)` — here
`(False, 0.0)` — together with the mutated deviation windows. The updated
smoothed target (4, computed internally as the AES target and written only to
the diagnostic CSV) is not part of the return value, so the bulk caller's
three-name unpacking `no_err, target, cl = CUSUM(...)` cannot be satisfied. -/
theorem C1_CUSUM_return :
    CUSUM emptyDev emptyDev (WinArg.win w555) 4 =
      Except.ok ((false, 0), ⟨10, [1]⟩, ⟨10, [0]⟩) ∧
    get_AES_target w555.get_win_vals 4 = 4 := by
  have hvals : ∀ x ∈ w555.get_win_vals, x = 5 := by
    intro x hx
    simp only [w555, mkTemp, SlidingWindow.get_win_vals, List.map_cons, List.map_nil,
      List.mem_cons, List.not_mem_nil, or_false] at hx
    rcases hx with rfl | rfl | rfl <;> rfl
  have hvne : w555.get_win_vals ≠ [] := by simp [w555, SlidingWindow.get_win_vals]
  constructor
  · simp only [CUSUM, dynGetWinVals, dynGetWinTimes, bind, Except.bind,
      get_AES_target_const hvals hvne 4, get_slack_const hvals, get_control_lim_const hvals,
      getLastD_const hvals hvne, sub_zero]
    norm_num [emptyDev, SlidingWindow.is_full, SlidingWindow.add_reading,
      SlidingWindow.slide_next, dequeAppend, SlidingWindow.as_list, max_def, pure, Except.pure]
  · exact get_AES_target_const hvals hvne 4

/-! ## The CUSUM stage as the orchestrators invoke it -/

theorem CUSUM_floatList (p m : SlidingWindow ℝ) (l : List ℚ) (t : ℝ) :
    CUSUM p m (WinArg.floatList l) t =
      Except.error (PyErr.attributeError "list" "get_win_vals") := rfl

theorem time_difference_str (a b : Timestamp) :
    time_difference (PyTime.str a) (PyTime.str b) = Except.ok (b.toSecs - a.toSecs) := rfl

theorem is_const_err_ok (w : SlidingWindow DataPoint) (lc : ℚ × PyTime) (mt : ℤ)
    (h : w.get_win_vals.getLastD 0 ≠ lc.1 ∨ ∃ t, lc.2 = PyTime.str t) :
    ∃ b lc', is_const_err w lc mt = Except.ok (b, lc') := by
  by_cases hv : w.get_win_vals.getLastD 0 = lc.1
  · rcases h with h | ⟨t, ht⟩
    · exact absurd hv h
    · by_cases htd : mt < (w.get_win_times.getLastD default).toSecs - t.toSecs
      · refine ⟨true, lc, ?_⟩
        simp only [is_const_err, bind, Except.bind, pure, Except.pure]
        rw [if_pos hv, ht, time_difference_str]
        show (if mt < (w.get_win_times.getLastD default).toSecs - t.toSecs then
          Except.ok (true, lc) else Except.ok (false, lc)) = Except.ok (true, lc)
        rw [if_pos htd]
      · refine ⟨false, lc, ?_⟩
        simp only [is_const_err, bind, Except.bind, pure, Except.pure]
        rw [if_pos hv, ht, time_difference_str]
        show (if mt < (w.get_win_times.getLastD default).toSecs - t.toSecs then
          Except.ok (true, lc) else Except.ok (false, lc)) = Except.ok (false, lc)
        rw [if_neg htd]
  · refine ⟨false, (w.get_win_vals.getLastD 0, PyTime.str (w.get_win_times.getLastD default)), ?_⟩
    simp only [is_const_err, bind, Except.bind, pure, Except.pure]
    rw [if_neg hv]

/-- The observable behaviour of the continuous driver's steady block on a
temperature window, whenever the constant-fault check itself can complete
(seeding just happened, the newest value differs from the stored one, or the
stored timestamp is a parsed string): the window goes through range validation
with `check_all = (num_reads == 10)`, then EMA, then the median filter, the
flag trace records that flag, and the step dies at the CUSUM stage with the
list/`get_win_vals` AttributeError. -/
theorem sensorsSteady_spec (p : List ℚ → List Timestamp → List ℚ × List Timestamp)
    (s : SensorsState)
    (hsensor : s.window.get_sensor_type = "TEMP_sensor")
    (hsafe : s.num_reads = 10 ∨ s.window.get_win_vals.getLastD 0 ≠ s.last_changed.1 ∨
      ∃ t, s.last_changed.2 = PyTime.str t) :
    (sensorsSteady p s).window =
      med_filter (do_EMA (range_check s.window 45 (-10) (decide (s.num_reads = 10)))
        s.last_EMA (2 / 5)).2 3 ∧
    (sensorsSteady p s).halted = some (PyErr.attributeError "list" "get_win_vals") ∧
    (sensorsSteady p s).range_flags = s.range_flags ++ [decide (s.num_reads = 10)] ∧
    (sensorsSteady p s).clean_vals = s.clean_vals := by
  by_cases hn : s.num_reads = 10
  · obtain ⟨b, lc', hic⟩ := is_const_err_ok s.window
      (s.window.get_win_vals.getLastD 0, PyTime.str (s.window.get_win_times.getLastD default))
      1800 (Or.inr ⟨_, rfl⟩)
    simp only [sensorsSteady, get_max_time, hn, reduceIte, hic, hsensor, get_UL, get_LL,
      String.reduceEq, or_self, or_false, false_or, true_or, or_true, CUSUM_floatList]
    refine ⟨?_, ?_, ?_, ?_⟩ <;> trivial
  · obtain ⟨b, lc', hic⟩ := is_const_err_ok s.window s.last_changed 1800
      ((hsafe.resolve_left hn).imp id id)
    simp only [sensorsSteady, get_max_time, hn, reduceIte, hic, hsensor, get_UL, get_LL,
      String.reduceEq, or_self, or_false, false_or, true_or, or_true, CUSUM_floatList]
    refine ⟨?_, ?_, ?_, ?_⟩ <;> trivial

/-- The observable behaviour of the bulk driver's steady iteration on a
temperature window, whenever the constant-fault check can complete: the window
goes through range validation with `check_all = first_window`, then the median
filter, then EMA (seeded from the newest value on the first STEADY step), the
flag trace records `first_window`, the data list is not consumed, nothing is
appended to the cleaned list, and the iteration dies at the CUSUM stage with
the list/`get_win_vals` AttributeError. -/
theorem csvSteadyIter_spec (p : List ℚ → List Timestamp → List ℚ × List Timestamp)
    (s : CsvState)
    (hsensor : s.window.get_sensor_type = "TEMP_sensor")
    (hsafe : s.first_window = true ∨ s.window.get_win_vals.getLastD 0 ≠ s.last_changed.1 ∨
      ∃ t, s.last_changed.2 = PyTime.str t) :
    (csvSteadyIter p s).window =
      (do_EMA (med_filter (range_check s.window 45 (-10) s.first_window) 3)
        (if s.first_window then s.window.get_win_vals.getLastD 0 else s.last_EMA) (2 / 5)).2 ∧
    (csvSteadyIter p s).halted = some (PyErr.attributeError "list" "get_win_vals") ∧
    (csvSteadyIter p s).range_flags = s.range_flags ++ [s.first_window] ∧
    (csvSteadyIter p s).data_points = s.data_points ∧
    (csvSteadyIter p s).cleaned_data = s.cleaned_data := by
  by_cases hf : s.first_window = true
  · obtain ⟨b, lc', hic⟩ := is_const_err_ok s.window
      (s.window.get_win_vals.getLastD 0, PyTime.str (s.window.get_win_times.getLastD default))
      1800 (Or.inr ⟨_, rfl⟩)
    simp only [csvSteadyIter, get_max_time, hf, reduceIte, hic, hsensor, get_UL, get_LL,
      String.reduceEq, or_self, or_false, false_or, true_or, or_true, CUSUM_floatList,
      if_true]
    refine ⟨?_, ?_, ?_, ?_, ?_⟩ <;> trivial
  · obtain ⟨b, lc', hic⟩ := is_const_err_ok s.window s.last_changed 1800
      ((hsafe.resolve_left hf).imp id id)
    simp only [csvSteadyIter, get_max_time, hf, reduceIte, hic, hsensor, get_UL, get_LL,
      String.reduceEq, or_self, or_false, false_or, true_or, or_true, CUSUM_floatList,
      Bool.false_eq_true, if_false]
    refine ⟨?_, ?_, ?_, ?_, ?_⟩ <;> trivial

theorem sensorsSteady_flags (p : List ℚ → List Timestamp → List ℚ × List Timestamp)
    (s : SensorsState) (hn : s.num_reads ≠ 10) :
    ∀ b ∈ (sensorsSteady p s).range_flags, b = false ∨ b ∈ s.range_flags := by
  intro b hb
  have hd : decide (s.num_reads = 10) = false := by simp [hn]
  cases hic : is_const_err s.window s.last_changed 1800 with
  | error e =>
    simp only [sensorsSteady, hn, reduceIte, get_max_time, hic] at hb
    exact Or.inr hb
  | ok res =>
    cases hUL : get_UL s.window.get_sensor_type with
    | error e =>
      simp only [sensorsSteady, hn, reduceIte, get_max_time, hic, hUL] at hb
      exact Or.inr hb
    | ok UL =>
      cases hLL : get_LL s.window.get_sensor_type with
      | error e =>
        simp only [sensorsSteady, hn, reduceIte, get_max_time, hic, hUL, hLL] at hb
        exact Or.inr hb
      | ok LL =>
        simp only [sensorsSteady, hn, reduceIte, get_max_time, hic, hUL, hLL,
          CUSUM_floatList, hd, List.mem_append, List.mem_singleton] at hb
        rcases hb with hb | hb
        · exact Or.inr hb
        · exact Or.inl hb

theorem sensorsSteady_halted (p : List ℚ → List Timestamp → List ℚ × List Timestamp)
    (s : SensorsState) : (sensorsSteady p s).halted.isSome := by
  by_cases hn : s.num_reads = 10
  · cases hic : is_const_err s.window
      (s.window.get_win_vals.getLastD 0, PyTime.str (s.window.get_win_times.getLastD default))
      1800 with
    | error e =>
      simp only [sensorsSteady, hn, reduceIte, get_max_time, hic]
      rfl
    | ok res =>
      cases hUL : get_UL s.window.get_sensor_type with
      | error e =>
        simp only [sensorsSteady, hn, reduceIte, get_max_time, hic, hUL]
        rfl
      | ok UL =>
        cases hLL : get_LL s.window.get_sensor_type with
        | error e =>
          simp only [sensorsSteady, hn, reduceIte, get_max_time, hic, hUL, hLL]
          rfl
        | ok LL =>
          simp only [sensorsSteady, hn, reduceIte, get_max_time, hic, hUL, hLL,
            CUSUM_floatList]
          rfl
  · cases hic : is_const_err s.window s.last_changed 1800 with
    | error e =>
      simp only [sensorsSteady, hn, reduceIte, get_max_time, hic]
      rfl
    | ok res =>
      cases hUL : get_UL s.window.get_sensor_type with
      | error e =>
        simp only [sensorsSteady, hn, reduceIte, get_max_time, hic, hUL]
        rfl
      | ok UL =>
        cases hLL : get_LL s.window.get_sensor_type with
        | error e =>
          simp only [sensorsSteady, hn, reduceIte, get_max_time, hic, hUL, hLL]
          rfl
        | ok LL =>
          simp only [sensorsSteady, hn, reduceIte, get_max_time, hic, hUL, hLL,
            CUSUM_floatList]
          rfl

theorem sensorsStep_frozen (p : List ℚ → List Timestamp → List ℚ × List Timestamp)
    (s : SensorsState) (dp : DataPoint) (h : s.halted.isSome) :
    sensorsStep p s dp = s := by
  simp [sensorsStep, h]

theorem run_sensors_frozen (p : List ℚ → List Timestamp → List ℚ × List Timestamp)
    (l : List DataPoint) (s : SensorsState) (h : s.halted.isSome) :
    l.foldl (sensorsStep p) s = s := by
  induction l with
  | nil => rfl
  | cons a t ih =>
    rw [List.foldl_cons, sensorsStep_frozen p s a h]
    exact ih

theorem dequeAppend_small (l : List α) (x : α) (h : l.length + 1 ≤ 40) :
    dequeAppend 40 l x = l ++ [x] := by
  simp only [dequeAppend]
  rw [if_pos (by simpa using h)]

theorem sensorsStep_inv (p : List ℚ → List Timestamp → List ℚ × List Timestamp)
    (s : SensorsState) (dp : DataPoint) (hnone : s.halted = none)
    (hnr : s.num_reads = s.window.window.length + 1) (hlen : s.window.window.length ≤ 9)
    (hsz : s.window.size = 10) :
    (∀ b ∈ (sensorsStep p s dp).range_flags, b = false ∨ b ∈ s.range_flags) ∧
    ((sensorsStep p s dp).halted = none →
      (sensorsStep p s dp).num_reads = (sensorsStep p s dp).window.window.length + 1 ∧
      (sensorsStep p s dp).window.window.length ≤ 9 ∧
      (sensorsStep p s dp).window.size = 10) := by
  have hfull0 : s.window.is_full = false := by
    simp only [SlidingWindow.is_full, hsz]
    simp
    omega
  have hadd : s.window.add_reading dp = ⟨s.window.size, s.window.window ++ [dp]⟩ := by
    simp only [SlidingWindow.add_reading, dequeAppend_small s.window.window dp (by omega)]
  by_cases h1 : s.num_reads = 1
  · have hlen0 : s.window.window.length = 0 := by omega
    have hfull1 : (SlidingWindow.mk s.window.size (s.window.window ++ [dp])).is_full = false := by
      simp only [SlidingWindow.is_full, hsz]
      simp [hlen0]
    cases hmi : model_init (get_model_type dp.sensor_type) with
    | error e =>
      simp only [sensorsStep, hnone, Option.isSome_none, Bool.false_eq_true, if_false,
        is_null, h1, reduceIte, hmi]
      exact ⟨fun b hb => Or.inr hb, fun hcontra => by simp at hcontra⟩
    | ok u =>
      simp only [sensorsStep, hnone, Option.isSome_none, Bool.false_eq_true, if_false,
        is_null, h1, reduceIte, hmi, hfull0, hadd, hfull1, if_false]
      refine ⟨fun b hb => Or.inr hb, fun _ => ?_⟩
      simp [h1, hlen0, hsz]
  · by_cases h9 : s.window.window.length = 9
    · have hfull1 : (SlidingWindow.mk s.window.size (s.window.window ++ [dp])).is_full = true := by
        simp [SlidingWindow.is_full, hsz, h9]
      simp only [sensorsStep, hnone, Option.isSome_none, Bool.false_eq_true, if_false,
        is_null, h1, reduceIte, hfull0, hadd, hfull1, if_true]
      constructor
      · intro b hb
        rcases sensorsSteady_flags p _ (by simp; omega) b hb with hbf | hbm
        · exact Or.inl hbf
        · exact Or.inr hbm
      · intro hcontra
        have hs := sensorsSteady_halted p
          { s with num_reads := s.num_reads + 1
                   window := ⟨s.window.size, s.window.window ++ [dp]⟩
                   halted := none }
        rw [hcontra] at hs
        simp at hs
    · have hfull1 : (SlidingWindow.mk s.window.size (s.window.window ++ [dp])).is_full = false := by
        simp only [SlidingWindow.is_full, hsz]
        simp
        omega
      simp only [sensorsStep, hnone, Option.isSome_none, Bool.false_eq_true, if_false,
        is_null, h1, reduceIte, hfull0, hadd, hfull1, if_false]
      refine ⟨fun b hb => Or.inr hb, fun _ => ?_⟩
      refine ⟨?_, ?_, ?_⟩ <;> simp [hnr, hsz]
      omega

theorem run_sensors_flags_false (p : List ℚ → List Timestamp → List ℚ × List Timestamp)
    (dps : List DataPoint) : ∀ b ∈ (run_sensors p dps).range_flags, b = false := by
  suffices h : ∀ s : SensorsState,
      (∀ b ∈ s.range_flags, b = false) →
      (s.halted = none → s.num_reads = s.window.window.length + 1 ∧
        s.window.window.length ≤ 9 ∧ s.window.size = 10) →
      ∀ b ∈ (dps.foldl (sensorsStep p) s).range_flags, b = false by
    exact h sensorsInit (by simp [sensorsInit])
      (fun _ => ⟨rfl, by simp [sensorsInit], rfl⟩)
  induction dps with
  | nil =>
    intro s h1 _h2 b hb
    exact h1 b hb
  | cons dp rest ih =>
    intro s h1 h2
    rw [List.foldl_cons]
    by_cases hh : s.halted.isSome
    · rw [sensorsStep_frozen p s dp hh]
      exact ih s h1 h2
    · have hnone : s.halted = none := Option.not_isSome_iff_eq_none.mp hh
      obtain ⟨hnr, hlen, hsz⟩ := h2 hnone
      obtain ⟨hflags, hinv⟩ := sensorsStep_inv p s dp hnone hnr hlen hsz
      refine ih (sensorsStep p s dp) ?_ hinv
      intro b hb
      rcases hflags b hb with hbf | hbm
      · exact hbf
      · exact h1 b hbm

theorem csvFill_spec (fuel : ℕ) : ∀ (s : CsvState),
    s.window.size = 10 → s.window.window.length ≤ 10 →
    10 - s.window.window.length ≤ fuel →
    10 - s.window.window.length ≤ s.data_points.length →
    (csvFill fuel s).window.window =
      s.window.window ++ s.data_points.take (10 - s.window.window.length) ∧
    (csvFill fuel s).window.size = 10 ∧
    (csvFill fuel s).data_points = s.data_points.drop (10 - s.window.window.length) ∧
    ((csvFill fuel s).first_window = s.first_window ∨ (csvFill fuel s).first_window = true) ∧
    (s.window.window.length < 10 → (csvFill fuel s).first_window = true) ∧
    (csvFill fuel s).halted = s.halted ∧
    (csvFill fuel s).range_flags = s.range_flags ∧
    (csvFill fuel s).target = s.target ∧
    (csvFill fuel s).last_changed = s.last_changed ∧
    (csvFill fuel s).last_EMA = s.last_EMA ∧
    (csvFill fuel s).cleaned_data = s.cleaned_data := by
  induction fuel with
  | zero =>
    intro s hsz hle hfuel _hdata
    have hlen : s.window.window.length = 10 := by omega
    simp [csvFill, hlen, hsz]
  | succ m ih =>
    intro s hsz hle hfuel hdata
    by_cases hfull : s.window.is_full = true
    · have hlen : s.window.window.length = 10 := by
        have := (by simpa [SlidingWindow.is_full, hsz] using hfull : 10 ≤ s.window.window.length)
        omega
      simp [csvFill, hfull, hlen, hsz]
    · have hlt : s.window.window.length < 10 := by
        have := (by simpa [SlidingWindow.is_full, hsz] using hfull : ¬ 10 ≤ s.window.window.length)
        omega
      cases hdp : s.data_points with
      | nil =>
        rw [hdp] at hdata
        simp at hdata
        omega
      | cons d rest =>
        have hne : s.data_points ≠ [] := by
          rw [hdp]
          simp
        have hstep : csvFill (m + 1) s =
            csvFill m { s with window := ⟨s.window.size, s.window.window ++ [d]⟩
                               data_points := rest
                               first_window := true } := by
          simp only [csvFill]
          rw [if_pos ⟨by simp [hfull], hne⟩, hdp]
          simp only [is_null, Bool.false_eq_true, if_false, SlidingWindow.add_reading,
            dequeAppend_small s.window.window d (by omega)]
        rw [hstep]
        have hrec := ih { s with window := ⟨s.window.size, s.window.window ++ [d]⟩
                                 data_points := rest
                                 first_window := true }
          (by simpa using hsz) (by simp; omega) (by simp; omega)
          (by
            simp only [List.length_append, List.length_singleton]
            rw [hdp] at hdata
            simp at hdata
            omega)
        simp only [List.length_append, List.length_singleton] at hrec
        obtain ⟨hw, hwsz, hdps, hfw0, _hfw, hh, hrf, htg, hlc, hema, hcl⟩ := hrec
        have hfwt : (csvFill m { s with window := ⟨s.window.size, s.window.window ++ [d]⟩
                                        data_points := rest
                                        first_window := true }).first_window = true := by
          rcases hfw0 with h | h <;> simpa using h
        have harith : 10 - s.window.window.length = (10 - (s.window.window.length + 1)) + 1 := by
          omega
        refine ⟨?_, hwsz, ?_, Or.inr hfwt, fun _ => hfwt, hh, hrf, htg, hlc, hema, hcl⟩
        · rw [hw, harith, List.take_succ_cons]
          simp
        · rw [hdps, harith, List.drop_succ_cons]

theorem csvSteadyLoop_halted (p : List ℚ → List Timestamp → List ℚ × List Timestamp)
    (n : ℕ) (s : CsvState) (h : s.halted.isSome) : csvSteadyLoop p n s = s := by
  cases n with
  | zero => rfl
  | succ m => simp [csvSteadyLoop, h]

theorem run_csv_crashes (p : List ℚ → List Timestamp → List ℚ × List Timestamp)
    (dps : List DataPoint) (h11 : 11 ≤ dps.length)
    (hall : ∀ dp ∈ dps, dp.sensor_type = "TEMP_sensor") :
    (run_csv p dps).halted = some (PyErr.attributeError "list" "get_win_vals") ∧
    (run_csv p dps).range_flags = [true] := by
  cases dps with
  | nil => simp at h11
  | cons d0 rest0 =>
    have hlen : 10 ≤ rest0.length := by
      simp at h11
      omega
    set s0 : CsvState :=
      { window := ⟨10, []⟩, CT_plus_win := ⟨10, []⟩, CT_min_win := ⟨10, []⟩
        cleaned_data := [], data_points := d0 :: rest0, target := d0.value
        last_changed := (0, PyTime.int 0), last_EMA := 0, first_window := false
        range_flags := [], halted := none } with hs0
    obtain ⟨hw, hwsz, hdps, _hfw0, hfw, hh, hrf, _htg, _hlc, _hema, _hcl⟩ :=
      csvFill_spec (d0 :: rest0).length s0 rfl (by simp [hs0]) (by simp [hs0]; omega)
        (by simp [hs0]; omega)
    have hfwt : (csvFill (d0 :: rest0).length s0).first_window = true := by
      exact hfw (by simp [hs0])
    have htake : (d0 :: rest0).take 10 = d0 :: rest0.take 9 := by
      simp [List.take_succ_cons]
    have hsensor1 : (csvFill (d0 :: rest0).length s0).window.get_sensor_type =
        "TEMP_sensor" := by
      simp only [SlidingWindow.get_sensor_type, hw, hs0]
      simp only [List.nil_append, htake, List.headD_cons]
      exact hall d0 (by simp)
    have hmi : model_init (get_model_type
        (csvFill (d0 :: rest0).length s0).window.get_sensor_type) = Except.ok () := by
      rw [hsensor1]
      simp [get_model_type, model_init]
    have hdlen : ((csvFill (d0 :: rest0).length s0).data_points).length =
        (rest0.length - 10) + 1 := by
      rw [hdps]
      simp [hs0]
      omega
    have hdne : (csvFill (d0 :: rest0).length s0).data_points ≠ [] := by
      intro hcontra
      rw [hcontra] at hdlen
      simp at hdlen
    obtain ⟨hiw, hih, hirf, hidp, hicl⟩ :=
      csvSteadyIter_spec p (csvFill (d0 :: rest0).length s0) hsensor1 (Or.inl hfwt)
    have hloop : csvSteadyLoop p ((csvFill (d0 :: rest0).length s0).data_points).length
        (csvFill (d0 :: rest0).length s0) = csvSteadyIter p (csvFill (d0 :: rest0).length s0) := by
      rw [hdlen]
      simp only [csvSteadyLoop]
      rw [if_neg (by
        intro hor
        rcases hor with hor | hor
        · rw [hh] at hor
          simp [hs0] at hor
        · exact hdne hor)]
      exact csvSteadyLoop_halted p _ _ (by rw [hih]; rfl)
    have hres : run_csv p (d0 :: rest0) = csvSteadyIter p (csvFill (d0 :: rest0).length s0) := by
      simp only [run_csv]
      rw [← hs0]
      simp only [hmi, hloop, hih, Option.isSome_some, if_true]
    rw [hres, hih, hirf, hrf, hfwt]
    simp [hs0]

theorem run_sensors_crashes (p : List ℚ → List Timestamp → List ℚ × List Timestamp)
    (dps : List DataPoint) (h11 : 11 ≤ dps.length)
    (hall : ∀ dp ∈ dps, dp.sensor_type = "TEMP_sensor")
    (h9 : (dps.getD 9 default).value ≠ 0) :
    (run_sensors p dps).halted = some (PyErr.attributeError "list" "get_win_vals") := by
  rcases dps with _ | ⟨d0, dps⟩
  · simp at h11
  rcases dps with _ | ⟨d1, dps⟩
  · simp at h11
  rcases dps with _ | ⟨d2, dps⟩
  · simp at h11
  rcases dps with _ | ⟨d3, dps⟩
  · simp at h11
  rcases dps with _ | ⟨d4, dps⟩
  · simp at h11
  rcases dps with _ | ⟨d5, dps⟩
  · simp at h11
  rcases dps with _ | ⟨d6, dps⟩
  · simp at h11
  rcases dps with _ | ⟨d7, dps⟩
  · simp at h11
  rcases dps with _ | ⟨d8, dps⟩
  · simp at h11
  rcases dps with _ | ⟨d9, rest⟩
  · simp at h11
  have h0 : d0.sensor_type = "TEMP_sensor" := hall d0 (by simp)
  have h9v : d9.value ≠ 0 := by simpa [List.getD] using h9
  have e0 : sensorsStep p sensorsInit d0 =
      { window := ⟨10, [d0]⟩, CT_plus_win := ⟨10, []⟩, CT_min_win := ⟨10, []⟩
        clean_vals := [], num_reads := 2, last_changed := (0, PyTime.int 0)
        last_EMA := d0.value, range_flags := [], halted := none } := by
    simp [sensorsStep, sensorsInit, is_null, h0, get_model_type, model_init,
      SlidingWindow.is_full, SlidingWindow.add_reading, dequeAppend]
  have estep : ∀ (k : ℕ) (w : List DataPoint) (d : DataPoint), k = w.length → 1 ≤ k →
      k ≤ 8 →
      sensorsStep p
        { window := ⟨10, w⟩, CT_plus_win := ⟨10, []⟩, CT_min_win := ⟨10, []⟩
          clean_vals := [], num_reads := k + 1, last_changed := (0, PyTime.int 0)
          last_EMA := d0.value, range_flags := [], halted := none } d =
      { window := ⟨10, w ++ [d]⟩, CT_plus_win := ⟨10, []⟩, CT_min_win := ⟨10, []⟩
        clean_vals := [], num_reads := k + 2, last_changed := (0, PyTime.int 0)
        last_EMA := d0.value, range_flags := [], halted := none } := by
    intro k w d hk h1k h9k
    have hne1 : ¬ (k + 1 = 1) := by omega
    have hfull0 : ¬ (10 ≤ w.length) := by omega
    have hfull1 : ¬ (9 ≤ w.length) := by omega
    clear hk
    simp [sensorsStep, is_null, hne1, SlidingWindow.is_full, SlidingWindow.add_reading,
      dequeAppend_small w d (by omega), hfull0, hfull1]
  have e9 : sensorsStep p
      { window := ⟨10, [d0, d1, d2, d3, d4, d5, d6, d7, d8]⟩, CT_plus_win := ⟨10, []⟩
        CT_min_win := ⟨10, []⟩, clean_vals := [], num_reads := 10
        last_changed := (0, PyTime.int 0), last_EMA := d0.value, range_flags := []
        halted := none } d9 =
      sensorsSteady p
        { window := ⟨10, [d0, d1, d2, d3, d4, d5, d6, d7, d8, d9]⟩, CT_plus_win := ⟨10, []⟩
          CT_min_win := ⟨10, []⟩, clean_vals := [], num_reads := 11
          last_changed := (0, PyTime.int 0), last_EMA := d0.value, range_flags := []
          halted := none } := by
    simp [sensorsStep, is_null, SlidingWindow.is_full, SlidingWindow.add_reading,
      dequeAppend_small [d0, d1, d2, d3, d4, d5, d6, d7, d8] d9 (by simp)]
  have E1 := estep 1 [d0] d1 (by simp) (by omega) (by omega)
  have E2 := estep 2 [d0, d1] d2 (by simp) (by omega) (by omega)
  have E3 := estep 3 [d0, d1, d2] d3 (by simp) (by omega) (by omega)
  have E4 := estep 4 [d0, d1, d2, d3] d4 (by simp) (by omega) (by omega)
  have E5 := estep 5 [d0, d1, d2, d3, d4] d5 (by simp) (by omega) (by omega)
  have E6 := estep 6 [d0, d1, d2, d3, d4, d5] d6 (by simp) (by omega) (by omega)
  have E7 := estep 7 [d0, d1, d2, d3, d4, d5, d6] d7 (by simp) (by omega) (by omega)
  have E8 := estep 8 [d0, d1, d2, d3, d4, d5, d6, d7] d8 (by simp) (by omega) (by omega)
  norm_num at E1 E2 E3 E4 E5 E6 E7 E8
  obtain ⟨_hwin, hhalt, _hflags, _hclean⟩ := sensorsSteady_spec p
    { window := ⟨10, [d0, d1, d2, d3, d4, d5, d6, d7, d8, d9]⟩, CT_plus_win := ⟨10, []⟩
      CT_min_win := ⟨10, []⟩, clean_vals := [], num_reads := 11
      last_changed := (0, PyTime.int 0), last_EMA := d0.value, range_flags := []
      halted := none }
    (by simpa [SlidingWindow.get_sensor_type] using h0)
    (Or.inr (Or.inl (by
      simp only [SlidingWindow.get_win_vals, List.map_cons, List.map_nil]
      intro hcontra
      apply h9v
      simpa using hcontra)))
  show (List.foldl (sensorsStep p) sensorsInit
    (d0 :: d1 :: d2 :: d3 :: d4 :: d5 :: d6 :: d7 :: d8 :: d9 :: rest)).halted = _
  rw [List.foldl_cons, e0,
    List.foldl_cons, E1,
    List.foldl_cons, E2,
    List.foldl_cons, E3,
    List.foldl_cons, E4,
    List.foldl_cons, E5,
    List.foldl_cons, E6,
    List.foldl_cons, E7,
    List.foldl_cons, E8,
    List.foldl_cons, e9,
    run_sensors_frozen p rest _ (by rw [hhalt]; rfl), hhalt]

/-- C2 (corrected): the two driving modes do NOT run the identical per-step
sequence. On a temperature window, a continuous-mode STEADY step runs the
constant-fault check, then range validation with `check_all` true only when
`num_reads = 10` (never satisfied at a STEADY step, which starts at
`num_reads = 11`), then EMA, then the median filter, and dies at the CUSUM
stage; a bulk-mode STEADY step runs range validation with
`check_all = first_window` (true exactly on the first STEADY step), then the
median filter BEFORE EMA; consequently the continuous mode's recorded
`check_all` flags are all false on every input. -/
theorem C2_driving_modes (p : List ℚ → List Timestamp → List ℚ × List Timestamp)
    (s : SensorsState) (c : CsvState) (dps : List DataPoint)
    (hs : s.window.get_sensor_type = "TEMP_sensor")
    (hssafe : s.num_reads = 10 ∨ s.window.get_win_vals.getLastD 0 ≠ s.last_changed.1 ∨
      ∃ t, s.last_changed.2 = PyTime.str t)
    (hc : c.window.get_sensor_type = "TEMP_sensor")
    (hcsafe : c.first_window = true ∨ c.window.get_win_vals.getLastD 0 ≠ c.last_changed.1 ∨
      ∃ t, c.last_changed.2 = PyTime.str t) :
    (sensorsSteady p s).window =
      med_filter (do_EMA (range_check s.window 45 (-10) (decide (s.num_reads = 10)))
        s.last_EMA (2 / 5)).2 3 ∧
    (sensorsSteady p s).range_flags = s.range_flags ++ [decide (s.num_reads = 10)] ∧
    (csvSteadyIter p c).window =
      (do_EMA (med_filter (range_check c.window 45 (-10) c.first_window) 3)
        (if c.first_window then c.window.get_win_vals.getLastD 0 else c.last_EMA) (2 / 5)).2 ∧
    (csvSteadyIter p c).range_flags = c.range_flags ++ [c.first_window] ∧
    (∀ b ∈ (run_sensors p dps).range_flags, b = false) := by
  obtain ⟨h1, _, h2, _⟩ := sensorsSteady_spec p s hs hssafe
  obtain ⟨h3, _, h4, _, _⟩ := csvSteadyIter_spec p c hc hcsafe
  exact ⟨h1, h2, h3, h4, run_sensors_flags_false p dps⟩

/-- Witness for C2 at the concrete first-STEADY-step states. -/
theorem C2_driving_modes_witness :
    sSteady0.window.get_sensor_type = "TEMP_sensor" ∧
    (sSteady0.num_reads = 10 ∨ sSteady0.window.get_win_vals.getLastD 0 ≠ sSteady0.last_changed.1 ∨
      ∃ t, sSteady0.last_changed.2 = PyTime.str t) ∧
    cSteady0.window.get_sensor_type = "TEMP_sensor" ∧
    (cSteady0.first_window = true ∨ cSteady0.window.get_win_vals.getLastD 0 ≠ cSteady0.last_changed.1 ∨
      ∃ t, cSteady0.last_changed.2 = PyTime.str t) ∧
    ((sensorsSteady predict0 sSteady0).window =
      med_filter (do_EMA (range_check sSteady0.window 45 (-10) (decide (sSteady0.num_reads = 10)))
        sSteady0.last_EMA (2 / 5)).2 3 ∧
    (sensorsSteady predict0 sSteady0).range_flags =
      sSteady0.range_flags ++ [decide (sSteady0.num_reads = 10)] ∧
    (csvSteadyIter predict0 cSteady0).window =
      (do_EMA (med_filter (range_check cSteady0.window 45 (-10) cSteady0.first_window) 3)
        (if cSteady0.first_window then cSteady0.window.get_win_vals.getLastD 0
         else cSteady0.last_EMA) (2 / 5)).2 ∧
    (csvSteadyIter predict0 cSteady0).range_flags =
      cSteady0.range_flags ++ [cSteady0.first_window] ∧
    (∀ b ∈ (run_sensors predict0 []).range_flags, b = false)) :=
  ⟨rfl, Or.inr (Or.inr ⟨tsAt 0, rfl⟩), rfl, Or.inl rfl,
    C2_driving_modes predict0 sSteady0 cSteady0 [] rfl
      (Or.inr (Or.inr ⟨tsAt 0, rfl⟩)) rfl (Or.inl rfl)⟩

/-- Counterexample to C2 as stated: on the same eleven readings the
continuous mode records `check_all = false` at its first STEADY step while
the bulk mode records `check_all = true`, so the two modes do not run the
identical sequence and the continuous mode never uses `check_all = true`. -/
theorem C2_counterexample :
    (run_sensors predict0 rs11).range_flags = [false] ∧
    (run_csv predict0 rs11).range_flags = [true] := by
  constructor <;> with_unfolding_all rfl

/-- C3 (confirmed): the CUSUM stage as invoked by the orchestrators always
fails. CUSUM applied to the plain value list (the orchestrators pass
`window.get_win_vals()`) raises the list/`get_win_vals` AttributeError;
hence on any batch of at least eleven temperature readings the continuous
loop terminates with that unhandled error, and the bulk driver delivers the
same error instead of its cleaned list. -/
theorem C3_cusum_stage_error (p : List ℚ → List Timestamp → List ℚ × List Timestamp)
    (dps : List DataPoint) (h11 : 11 ≤ dps.length)
    (hall : ∀ dp ∈ dps, dp.sensor_type = "TEMP_sensor")
    (h9 : (dps.getD 9 default).value ≠ 0) :
    (∀ (pw mw : SlidingWindow ℝ) (l : List ℚ) (t : ℝ),
      CUSUM pw mw (WinArg.floatList l) t =
        Except.error (PyErr.attributeError "list" "get_win_vals")) ∧
    (run_sensors p dps).halted = some (PyErr.attributeError "list" "get_win_vals") ∧
    run_csv_result p dps = Except.error (PyErr.attributeError "list" "get_win_vals") := by
  refine ⟨fun pw mw l t => CUSUM_floatList pw mw l t,
    run_sensors_crashes p dps h11 hall h9, ?_⟩
  have h := (run_csv_crashes p dps h11 hall).1
  simp only [run_csv_result, h]

/-- Witness for C3 at the eleven concrete temperature readings. -/
theorem C3_cusum_stage_error_witness :
    11 ≤ rs11.length ∧
    (∀ dp ∈ rs11, dp.sensor_type = "TEMP_sensor") ∧
    (rs11.getD 9 default).value ≠ 0 ∧
    ((∀ (pw mw : SlidingWindow ℝ) (l : List ℚ) (t : ℝ),
      CUSUM pw mw (WinArg.floatList l) t =
        Except.error (PyErr.attributeError "list" "get_win_vals")) ∧
    (run_sensors predict0 rs11).halted = some (PyErr.attributeError "list" "get_win_vals") ∧
    run_csv_result predict0 rs11 = Except.error (PyErr.attributeError "list" "get_win_vals")) :=
  ⟨by decide, by decide, by decide,
    C3_cusum_stage_error predict0 rs11 (by decide) (by decide) (by decide)⟩

/-- C4 (code bug): replaying eleven readings in bulk mode does not yield
eleven cleaned outputs — it yields none: `run_csv` dies with the
list/`get_win_vals` AttributeError at its first STEADY step. Only a batch
too short ever to reach STEADY (here ten readings) is returned, unmodified,
by the final drain. -/
theorem C4_bulk_output_missing :
    rs11.length = 11 ∧
    run_csv_result predict0 rs11 =
      Except.error (PyErr.attributeError "list" "get_win_vals") ∧
    rs10.length = 10 ∧
    run_csv_result predict0 rs10 = Except.ok rs10 := by
  refine ⟨rfl, ?_, rfl, ?_⟩ <;> with_unfolding_all rfl
